import Mathlib

/-!
# User-management backend: authentication and password-reset flows

A shallow embedding of `final_user_management`:

* `models/user.go`, `models/request_models.go`, `models/response_models.go`
* `repositories/user_repository.go` (the queries the auth flows use)
* `utils/jwt_utils.go`, `utils/token_utils.go`, `utils/otp_utils.go`, `utils/email_utils.go`
* `services/auth_service.go`
* `controllers/auth_controller.go` (the `UpdatePassword` handler)

External collaborators are modelled explicitly:

* the relational table is a list of rows, scanned in primary-key order;
* the Redis cache is a map from keys to a value with its expiry instant;
* the JWT library is modelled symbolically: a compact token is either an
  HS256 token (the key it was signed with and its payload) or some other string;
* everything a call reads from outside (clock, random draw, signing key,
  hasher, outcome of each network operation) is a field of `Env`.

Time is a natural number of nanoseconds since the Unix epoch. The definitions come
first, the theorems after them.
-/

namespace UserManagement

deriving instance DecidableEq for Except

/-! ## Time -/

/-- Nanoseconds in `time.Second`. -/
@[irreducible] def second : Nat := 1000000000

/-- Nanoseconds in `time.Minute`. -/
@[irreducible] def minute : Nat := 60 * second

/-- Nanoseconds in `time.Hour`. -/
@[irreducible] def hour : Nat := 60 * minute

/-! ## models -/

/-- The constant `models.RoleUser`. -/
def RoleUser : String := "user"

/-- The constant `models.RoleAdmin`. -/
def RoleAdmin : String := "admin"

/-- The constant `models.ActiveStatus`. -/
def ActiveStatus : String := "active"

/-- The struct `models.User`; `UserRole` and `UserStatus` are string types,
timestamps are nanoseconds, `DeletedAt` is `none` for a live row. -/
structure User where
  ID : String
  ClientID : String
  Email : String
  FirstName : String
  LastName : String
  NationalID : Option String
  PassportNumber : Option String
  Password : String
  Phone : String
  ProfilePicture : Option String
  Username : String
  Slug : String
  Role : String
  Status : String
  CreatedAt : Nat
  UpdatedAt : Nat
  DeletedAt : Option Nat
deriving DecidableEq, Repr

/-- The struct `models.LoginRequest`. -/
structure LoginRequest where
  ClientID : String
  Password : String
  Username : String
deriving DecidableEq, Repr

/-- The struct `models.PasswordResetRequest`. -/
structure PasswordResetRequest where
  ClientID : String
  Username : String
deriving DecidableEq, Repr

/-- The struct `models.ResetPasswordRequest`. -/
structure ResetPasswordRequest where
  ClientID : String
  Username : String
deriving DecidableEq, Repr

/-- The struct `models.ConfirmOtpRequest`. -/
structure ConfirmOtpRequest where
  Otp : String
  Password : String
deriving DecidableEq, Repr

/-- The struct `models.SuccessResponse`. -/
structure SuccessResponse where
  Message : String
deriving DecidableEq, Repr

/-! ## JWT library (github.com/golang-jwt/jwt/v5), symbolic model -/

/-- The struct `jwt.RegisteredClaims`; a `NumericDate` is a whole number of
seconds since the epoch, `none` when the field is absent. -/
structure RegisteredClaims where
  Issuer : String
  Subject : String
  Audience : List String
  ExpiresAt : Option Nat
  NotBefore : Option Nat
  IssuedAt : Option Nat
  ID : String
deriving DecidableEq, Repr

/-- The struct `utils.Claims`: the user data with the embedded registered claims. -/
structure Claims where
  UserID : String
  Username : String
  Role : String
  Registered : RegisteredClaims
deriving DecidableEq, Repr

/-- A compact token string. `hs256 key claims` is the serialisation of `claims`
under an HS256 header with the HMAC computed under `key`; `other raw` is any
other string (not three segments, another algorithm, a damaged signature). -/
inductive Token where
  | hs256 (key : String) (claims : Claims)
  | other (raw : String)
deriving DecidableEq, Repr

/-- The struct `models.LoginResponse`. -/
structure LoginResponse where
  AccessToken : Token
deriving DecidableEq, Repr

/-- The function `jwt.NewNumericDate`: the instant truncated to `jwt.TimePrecision`
(one second), as a number of seconds. -/
def NewNumericDate (t : Nat) : Nat := t / second

/-- The call `jwt.NewWithClaims(jwt.SigningMethodHS256, claims).SignedString(key)`.
HMAC signing accepts every byte-slice key (also the empty one) and cannot fail. -/
def SignedString (key : String) (claims : Claims) : Except String Token :=
  .ok (.hs256 key claims)

/-- The claims validator of the library with its default options: an expiry, when
present, must be strictly after `now`; a not-before, when present, must not be
after `now`. Issued-at is not checked by default. -/
def validateRegistered (now : Nat) (rc : RegisteredClaims) : Option String :=
  match rc.ExpiresAt with
  | some exp =>
    if now < exp * second then
      match rc.NotBefore with
      | some nbf => if nbf * second ≤ now then none else some "token is not valid yet"
      | none => none
    else some "token is expired"
  | none =>
    match rc.NotBefore with
    | some nbf => if nbf * second ≤ now then none else some "token is not valid yet"
    | none => none

/-- A parsed `jwt.Token`: its claims and the `Valid` flag. -/
structure ParsedToken where
  Claims : Claims
  Valid : Bool
deriving DecidableEq, Repr

/-- The function `jwt.ParseWithClaims` with a key function that returns `key`:
the token must be a well-formed HS256 token whose signature verifies under `key`
and whose registered claims validate at `now`; then `Valid` is set. -/
def ParseWithClaims (now : Nat) (tokenString : Token) (key : String) :
    Except String ParsedToken :=
  match tokenString with
  | .other _ => .error "token is malformed"
  | .hs256 k claims =>
    if k = key then
      match validateRegistered now claims.Registered with
      | some e => .error e
      | none => .ok { Claims := claims, Valid := true }
    else .error "signature is invalid"

/-! ## Environment of one call -/

/-- The struct `utils.EmailConfig`. -/
structure EmailConfig where
  SMTPHost : String
  SMTPPort : Int
  SMTPUsername : String
  SMTPPassword : String
  FromEmail : String
deriving DecidableEq, Repr

/-- Everything a service call reads from outside the directory and the cache.
`HashPassword` and `CheckPasswordHash` are the two functions of `utils` that the
services call and whose file is not part of the sources; they are parameters
(`HashPassword` returns Go's pair of a string and an optional error). -/
structure Env where
  /-- The clock reading `time.Now()`, in nanoseconds. -/
  now : Nat
  /-- The package variable `jwtKey`, set once by `SetJWTSecret`. -/
  jwtKey : String
  /-- The function `utils.HashPassword`. -/
  HashPassword : String → String × Option String
  /-- The function `utils.CheckPasswordHash`. -/
  CheckPasswordHash : String → String → Bool
  /-- The value the freshly seeded generator yields for `rand.Intn`. -/
  draw : Nat
  /-- The `EmailConfig` read from the process environment. -/
  emailCfg : EmailConfig
  /-- The error of a directory query, when the database is failing. -/
  dbFindError : Option String
  /-- The error of a directory update, when the database is failing. -/
  dbUpdateError : Option String
  /-- The error of a cache `GET` other than `redis.Nil`. -/
  redisGetError : Option String
  /-- The error of `pipe.Exec`, when the transaction does not commit. -/
  redisExecError : Option String
  /-- The error of the cache `DEL`. -/
  redisDelError : Option String
  /-- The error of `DialAndSend`. -/
  smtpError : Option String

/-! ## repositories/user_repository.go -/

/-- The users table: its rows in primary-key order. -/
abbrev Directory := List User

/-- The call `db.First(&user, cond)`: the first live row (soft-deleted rows are
filtered out) in primary-key order that satisfies the condition, or
`gorm.ErrRecordNotFound`; a failing database reports its own error. -/
def First (env : Env) (db : Directory) (cond : User → Bool) : Except String User :=
  match env.dbFindError with
  | some e => .error e
  | none =>
    match db.find? (fun u => u.DeletedAt.isNone && cond u) with
    | some u => .ok u
    | none => .error "record not found"

/-- The method `userRepository.FindByID`: `id = ?`. -/
def FindByID (env : Env) (db : Directory) (id : String) : Except String User :=
  First env db (fun u => u.ID == id)

/-- The method `userRepository.FindByUsername`: `username = ?`. -/
def FindByUsername (env : Env) (db : Directory) (username : String) : Except String User :=
  First env db (fun u => u.Username == username)

/-- The method `userRepository.FindByEmail`: `email = ?`. -/
def FindByEmail (env : Env) (db : Directory) (email : String) : Except String User :=
  First env db (fun u => u.Email == email)

/-- The method `userRepository.UpdatePassword`: sets the password column (and the
auto-update timestamp) of every live row with the given id. The result is the
error, if any, and the table afterwards. -/
def userRepository.UpdatePassword (env : Env) (db : Directory) (id password : String) :
    Option String × Directory :=
  match env.dbUpdateError with
  | some e => (some e, db)
  | none =>
    (none, db.map (fun u =>
      if u.ID = id ∧ u.DeletedAt = none then
        { u with Password := password, UpdatedAt := env.now }
      else u))

/-! ## utils/jwt_utils.go -/

/-- The function `utils.GenerateJWT`. -/
def GenerateJWT (env : Env) (userID username role : String) : Except String Token :=
  let expirationTime := env.now + 24 * hour
  let claims : Claims :=
    { UserID := userID
      Username := username
      Role := role
      Registered :=
        { Issuer := "", Subject := "", Audience := []
          ExpiresAt := some (NewNumericDate expirationTime)
          NotBefore := none, IssuedAt := none, ID := "" } }
  SignedString env.jwtKey claims

/-- The function `utils.ValidateJWT`, called at instant `now` with the package
key `jwtKey`. -/
def ValidateJWT (jwtKey : String) (now : Nat) (tokenString : Token) : Except String Claims :=
  match ParseWithClaims now tokenString jwtKey with
  | .error err => .error err
  | .ok token =>
    if !token.Valid then .error "signature is invalid"
    else .ok token.Claims

/-- The claims `GenerateJWT` embeds at instant `now`: the user data and an expiry
24 hours later, truncated to the second; no other registered claim is set. -/
def issuedClaims (now : Nat) (userID username role : String) : Claims :=
  { UserID := userID, Username := username, Role := role
    Registered :=
      { Issuer := "", Subject := "", Audience := []
        ExpiresAt := some (NewNumericDate (now + 24 * hour))
        NotBefore := none, IssuedAt := none, ID := "" } }

/-! ## services/auth_service.go: Login -/

/-- Lines 326-338 of `authService.Login`: the identifier resolution. `none` is the
early return for a request without identifier; otherwise the result of the last
repository call made. -/
def Login.lookup (env : Env) (db : Directory) (request : LoginRequest) :
    Option (Except String User) :=
  if request.Username ≠ "" then
    match FindByUsername env db request.Username with
    | .ok user => some (.ok user)
    | .error _ => some (FindByEmail env db request.Username)
  else if request.ClientID ≠ "" then
    some (FindByID env db request.ClientID)
  else none

/-- The method `authService.Login`. -/
def Login (env : Env) (db : Directory) (request : LoginRequest) :
    Except String LoginResponse :=
  match Login.lookup env db request with
  | none => .error "username or clientID is required for login"
  | some (.error _) => .error "invalid credentials"
  | some (.ok user) =>
    if !env.CheckPasswordHash request.Password user.Password then
      .error "invalid credentials"
    else
      match GenerateJWT env user.ID user.Username user.Role with
      | .error _ => .error "failed to generate token"
      | .ok token => .ok { AccessToken := token }

/-! ## The cache (Redis) -/

/-- The cache contents: each key that is set holds a value and the instant at
which the entry expires. -/
abbrev Store := String → Option (String × Nat)

/-- The cache with no key set. -/
def Store.empty : Store := fun _ => none

/-- The command `SET key value` with a time-to-live, executed at `now`. -/
def Store.set (st : Store) (now : Nat) (key value : String) (ttl : Nat) : Store :=
  fun k => if k = key then some (value, now + ttl) else st k

/-- The command `DEL keys...`. -/
def Store.del (st : Store) (keys : List String) : Store :=
  fun k => if k ∈ keys then none else st k

/-- What a `GET key` at instant `now` sees: the value of an entry that has not
expired. -/
def Store.get (st : Store) (now : Nat) (key : String) : Option String :=
  match st key with
  | some (v, exp) => if now < exp then some v else none
  | none => none

/-- The result of `redisClient.Get(ctx, key).Result()`: a value, `redis.Nil`, or
another error. -/
inductive GetResult where
  | value (v : String)
  | nil
  | err (e : String)
deriving DecidableEq, Repr

/-- The call `redisClient.Get(ctx, key).Result()`. -/
def Get (env : Env) (st : Store) (key : String) : GetResult :=
  match env.redisGetError with
  | some e => .err e
  | none =>
    match st.get env.now key with
    | some v => .value v
    | none => .nil

/-- The call `pipe.Exec(ctx)` on a `TxPipeline` holding the queued `SET`
commands `(key, value, ttl)`: a MULTI/EXEC transaction, which applies all of the
commands in order or, when it fails, none of them. -/
def Exec (env : Env) (st : Store) (cmds : List (String × String × Nat)) :
    Option String × Store :=
  match env.redisExecError with
  | some e => (some e, st)
  | none => (none, cmds.foldl (fun s c => s.set env.now c.1 c.2.1 c.2.2) st)

/-- The call `redisClient.Del(ctx, keys...)`, whose result the service ignores:
one command, which removes all the keys or, when it fails, none. -/
def Del (env : Env) (st : Store) (keys : List String) : Store :=
  match env.redisDelError with
  | some _ => st
  | none => st.del keys

/-! ## utils/otp_utils.go and utils/email_utils.go -/

/-- The call `rand.Intn(n)` on the freshly seeded generator: a value below `n`. -/
def Intn (draw n : Nat) : Nat := draw % n

/-- The function `utils.GenerateOTP`. -/
def GenerateOTP (env : Env) : String :=
  let otp := Intn env.draw (999999 - 100000) + 100000
  toString otp

/-- A message handed to the SMTP dialer. -/
structure Mail where
  From : String
  To : String
  Subject : String
  Body : String
deriving DecidableEq, Repr

/-- The function `utils.SendPasswordResetEmail`: builds the message and calls
`DialAndSend`. The result is the error, if any, and the messages handed to the
dialer. -/
def SendPasswordResetEmail (env : Env) (config : EmailConfig) (toEmail otp : String) :
    Option String × List Mail :=
  let m : Mail :=
    { From := config.FromEmail
      To := toEmail
      Subject := "Password Reset OTP"
      Body := "Your OTP is: <strong>" ++ otp ++ "</strong><br>It will expire in 5 minutes." }
  match env.smtpError with
  | some err => (some err, [m])
  | none => (none, [m])

/-! ## services/auth_service.go: the OTP reset path -/

/-- What a service call leaves behind: its result, the users table, the cache
and the messages handed to the SMTP dialer. -/
structure Outcome where
  result : Except String SuccessResponse
  db : Directory
  store : Store
  mails : List Mail

/-- Lines 221-227 of `authService.RequestPasswordReset`: the identifier
resolution. `none` is the early return for a request without identifier. -/
def RequestPasswordReset.lookup (env : Env) (db : Directory)
    (request : PasswordResetRequest) : Option (Except String User) :=
  if request.Username ≠ "" then
    some (FindByUsername env db request.Username)
  else if request.ClientID ≠ "" then
    some (FindByID env db request.ClientID)
  else none

/-- The method `authService.RequestPasswordReset`. -/
def RequestPasswordReset (env : Env) (db : Directory) (st : Store)
    (request : PasswordResetRequest) : Outcome :=
  match RequestPasswordReset.lookup env db request with
  | none => { result := .error "username or clientID is required", db := db, store := st, mails := [] }
  | some (.error _) =>
    { result := .ok { Message := "If an account with that identifier exists, an OTP has been sent." }
      db := db, store := st, mails := [] }
  | some (.ok user) =>
    if user.Email = "" then
      { result := .error "user has no email", db := db, store := st, mails := [] }
    else
      let otp := GenerateOTP env
      let redisOTPKey := "otp:" ++ otp
      let redisEmailKey := "email:" ++ user.Email
      match Exec env st [(redisOTPKey, user.Email, 5 * minute), (redisEmailKey, otp, 5 * minute)] with
      | (some _, st1) =>
        { result := .error "failed to store OTP", db := db, store := st1, mails := [] }
      | (none, st1) =>
        let body := "Your OTP for password reset is: <strong>" ++ otp ++
          "</strong><br>It expires in 5 minutes."
        match SendPasswordResetEmail env env.emailCfg user.Email body with
        | (some _, sent) =>
          { result := .error "failed to send OTP email", db := db, store := st1, mails := sent }
        | (none, sent) =>
          { result := .ok { Message := "Password reset OTP sent via email" }
            db := db, store := st1, mails := sent }

/-- Lines 50-56 of `authService.ResetPasswordViaEmail`: the identifier resolution. -/
def ResetPasswordViaEmail.lookup (env : Env) (db : Directory)
    (request : ResetPasswordRequest) : Option (Except String User) :=
  if request.Username ≠ "" then
    some (FindByUsername env db request.Username)
  else if request.ClientID ≠ "" then
    some (FindByID env db request.ClientID)
  else none

/-- The method `authService.ResetPasswordViaEmail`. -/
def ResetPasswordViaEmail (env : Env) (db : Directory) (st : Store)
    (request : ResetPasswordRequest) : Outcome :=
  match ResetPasswordViaEmail.lookup env db request with
  | none => { result := .error "username or clientID is required", db := db, store := st, mails := [] }
  | some (.error _) =>
    { result := .ok { Message := "If an account with that identifier exists, an OTP has been sent." }
      db := db, store := st, mails := [] }
  | some (.ok user) =>
    if user.Email = "" then
      { result := .error "user has no email", db := db, store := st, mails := [] }
    else
      let otp := GenerateOTP env
      let redisOTPKey := "otp:" ++ otp
      let redisEmailKey := "email:" ++ user.Email
      match Exec env st [(redisOTPKey, user.Email, 5 * minute), (redisEmailKey, otp, 5 * minute)] with
      | (some _, st1) =>
        { result := .error "failed to store OTP", db := db, store := st1, mails := [] }
      | (none, st1) =>
        let body := "Your OTP for password reset is: <strong>" ++ otp ++
          "</strong><br>It expires in 5 minutes."
        match SendPasswordResetEmail env env.emailCfg user.Email body with
        | (some _, sent) =>
          { result := .error "failed to send OTP email", db := db, store := st1, mails := sent }
        | (none, sent) =>
          { result := .ok { Message := "Password reset OTP sent via email" }
            db := db, store := st1, mails := sent }

/-- The method `authService.ConfirmPasswordResetOtp`. The error of
`HashPassword` is discarded by the code, so only the string it returns is used. -/
def ConfirmPasswordResetOtp (env : Env) (db : Directory) (st : Store)
    (req : ConfirmOtpRequest) : Outcome :=
  match Get env st ("otp:" ++ req.Otp) with
  | .nil => { result := .error "invalid or expired OTP", db := db, store := st, mails := [] }
  | .err e => { result := .error e, db := db, store := st, mails := [] }
  | .value email =>
    match FindByEmail env db email with
    | .error _ => { result := .error "user not found", db := db, store := st, mails := [] }
    | .ok user =>
      let hashed := (env.HashPassword req.Password).1
      match userRepository.UpdatePassword env db user.ID hashed with
      | (some e, db1) => { result := .error e, db := db1, store := st, mails := [] }
      | (none, db1) =>
        { result := .ok { Message := "Password reset successful" }
          db := db1
          store := Del env st ["otp:" ++ req.Otp, "email:" ++ email]
          mails := [] }

/-! ## utils/token_utils.go -/

/-- The package variable `passwordResetSecret`. -/
def passwordResetSecret : String := "your-password-reset-secret-here"

/-- The function `utils.GeneratePasswordResetToken`: a token whose payload is a
`jwt.RegisteredClaims` (no user data) with the email as subject. -/
def GeneratePasswordResetToken (env : Env) (email : String) : Except String Token :=
  let claims : Claims :=
    { UserID := "", Username := "", Role := ""
      Registered :=
        { Issuer := "", Subject := email, Audience := []
          ExpiresAt := some (NewNumericDate (env.now + 1 * hour))
          NotBefore := none
          IssuedAt := some (NewNumericDate env.now)
          ID := "" } }
  SignedString passwordResetSecret claims

/-- The function `utils.VerifyPasswordResetToken`, called at instant `now`. -/
def VerifyPasswordResetToken (now : Nat) (tokenString : Token) : Except String String :=
  match ParseWithClaims now tokenString passwordResetSecret with
  | .error err => .error err
  | .ok token =>
    if token.Valid then .ok token.Claims.Registered.Subject
    else .error "token has invalid claims"

/-- The claims `GeneratePasswordResetToken` embeds at instant `now`: the email as
subject, the issue instant and an expiry one hour later, both truncated to the
second. -/
def resetClaims (now : Nat) (email : String) : Claims :=
  { UserID := "", Username := "", Role := ""
    Registered :=
      { Issuer := "", Subject := email, Audience := []
        ExpiresAt := some (NewNumericDate (now + 1 * hour))
        NotBefore := none
        IssuedAt := some (NewNumericDate now)
        ID := "" } }

/-! ## services/auth_service.go: UpdatePassword and ResetPasswordWithToken -/

/-- The struct `models.UpdatePasswordRequest`. -/
structure UpdatePasswordRequest where
  NewPassword : String
  OldPassword : String
deriving DecidableEq, Repr

/-- The method `authService.UpdatePassword`: its result and the users table
afterwards. -/
def authService.UpdatePassword (env : Env) (db : Directory) (userID : String)
    (request : UpdatePasswordRequest) : Except String SuccessResponse × Directory :=
  match FindByID env db userID with
  | .error err => (.error err, db)
  | .ok user =>
    if !env.CheckPasswordHash request.OldPassword user.Password then
      (.error "old password is incorrect", db)
    else
      match env.HashPassword request.NewPassword with
      | (_, some err) => (.error err, db)
      | (hashedPassword, none) =>
        match userRepository.UpdatePassword env db userID hashedPassword with
        | (some err, db1) => (.error err, db1)
        | (none, db1) => (.ok { Message := "Password updated successfully" }, db1)

/-- The method `authService.ResetPasswordWithToken`: its result and the users
table afterwards. -/
def ResetPasswordWithToken (env : Env) (db : Directory) (tokenString : Token)
    (newPassword : String) : Except String SuccessResponse × Directory :=
  match VerifyPasswordResetToken env.now tokenString with
  | .error _ => (.error "invalid or expired reset token", db)
  | .ok email =>
    match FindByEmail env db email with
    | .error _ => (.error "user not found", db)
    | .ok user =>
      match env.HashPassword newPassword with
      | (_, some err) => (.error err, db)
      | (hashedPwd, none) =>
        match userRepository.UpdatePassword env db user.ID hashedPwd with
        | (some err, db1) => (.error err, db1)
        | (none, db1) => (.ok { Message := "Password has been reset successfully" }, db1)

/-! ## controllers/auth_controller.go: UpdatePassword -/

/-- The constant `http.StatusOK`. -/
def StatusOK : Nat := 200

/-- The constant `http.StatusBadRequest`. -/
def StatusBadRequest : Nat := 400

/-- The constant `http.StatusUnauthorized`. -/
def StatusUnauthorized : Nat := 401

/-- What a handler writes with `ctx.JSON`: the status code and the body, either a
`models.ErrorResponse` (its `Error` text) or a `models.SuccessResponse`. -/
structure HttpResponse where
  status : Nat
  body : Except String SuccessResponse
deriving DecidableEq, Repr

/-- The handler `AuthController.UpdatePassword`. `ctxUserID` is what
`ctx.Get("userID")` holds (`none` when the key is not set), `body` is the result
of `ctx.ShouldBindJSON`. The result is the response and the users table afterwards. -/
def AuthController.UpdatePassword (env : Env) (db : Directory) (ctxUserID : Option String)
    (body : Except String UpdatePasswordRequest) : HttpResponse × Directory :=
  match ctxUserID with
  | none => ({ status := StatusUnauthorized, body := .error "invalid token" }, db)
  | some userID =>
    match body with
    | .error err => ({ status := StatusBadRequest, body := .error err }, db)
    | .ok request =>
      match authService.UpdatePassword env db userID request with
      | (.error err, db1) => ({ status := StatusBadRequest, body := .error err }, db1)
      | (.ok response, db1) => ({ status := StatusOK, body := .ok response }, db1)

/-! ## The gin context, middleware/auth_middleware.go, routes/routes.go -/

/-- The value of the `Authorization` header. `raw v` is the header text `v` as it
came, the empty text when the header is missing; `bearer t` is the text "Bearer "
followed by the token string `t`. -/
inductive Authorization where
  | raw (value : String)
  | bearer (tokenString : Token)
deriving DecidableEq, Repr

/-- The pair `strings.HasPrefix(auth, "Bearer ")`, `strings.TrimPrefix(auth,
"Bearer ")`: `none` when the prefix is missing, else the rest of the header. What
follows the prefix in a `raw` text is a string that is no signed token. -/
def Authorization.trimBearer : Authorization → Option Token
  | .bearer tokenString => some tokenString
  | .raw value =>
    if "Bearer ".data.isPrefixOf value.data then some (.other (String.mk (value.data.drop 7)))
    else none

/-- The part of `gin.Context` the handlers of the auth routes use: the
`Authorization` header of the request, the request body as `ShouldBindJSON` decodes
it into `models.UpdatePasswordRequest`, the key "userID" of the context (`none`
while it is not set), the response written so far and whether the chain was
aborted. -/
structure Context where
  authorization : Authorization
  body : Except String UpdatePasswordRequest
  userID : Option String
  response : Option HttpResponse
  aborted : Bool
deriving DecidableEq, Repr

/-- The context gin hands to the first handler of a request. -/
def Context.new (authorization : Authorization)
    (body : Except String UpdatePasswordRequest) : Context :=
  { authorization := authorization, body := body, userID := none, response := none
    aborted := false }

/-- The call `c.AbortWithStatusJSON(code, models.ErrorResponse{Error: err})`. -/
def Context.AbortWithStatusJSON (c : Context) (code : Nat) (err : String) : Context :=
  { c with response := some { status := code, body := .error err }, aborted := true }

/-- The handler returned by `AuthMiddleware`: a request without a bearer token that
`ValidateJWT` accepts is aborted with 401; otherwise the UserID claim is stored
under "userID" and the chain goes on. -/
def AuthMiddleware (env : Env) (c : Context) : Context :=
  match c.authorization.trimBearer with
  | none => c.AbortWithStatusJSON 401 "invalid token"
  | some tokenString =>
    match ValidateJWT env.jwtKey env.now tokenString with
    | .error _ => c.AbortWithStatusJSON 401 "invalid token"
    | .ok claims => { c with userID := some claims.UserID }

/-- The method `authService.CheckAuth`: the response and the (nil) error. -/
def authService.CheckAuth : SuccessResponse × Option String :=
  ({ Message := "User is authenticated" }, none)

/-- The handler `AuthController.CheckAuth`: it reads nothing from the context. -/
def AuthController.CheckAuth (c : Context) : Context :=
  { c with response := some { status := StatusOK, body := .ok authService.CheckAuth.1 } }

/-- The handler functions that `SetupRouter` and the middleware package name. -/
inductive HandlerFunc where
  | GetAllUsers | RegisterUser | RegisterUserByAdmin | GetUserBySlug
  | UpdatePasswordByAdmin | GetUserByID | DeleteUser | UpdateUser
  | RequestPasswordReset | ConfirmPasswordResetOtp | Login | ResetPasswordViaEmail
  | UpdatePassword | ResetPasswordWithToken | CheckAuth
  | AuthMiddleware
deriving DecidableEq, Repr

/-- One registered route: method, full path and the handler chain. -/
structure Route where
  Method : String
  Path : String
  Handlers : List HandlerFunc
deriving DecidableEq, Repr

/-- The routes registered by `SetupRouter`, in source order, each with the chain
passed at registration; neither group is given a middleware with `Use`. -/
def SetupRouter : List Route :=
  [ { Method := "GET", Path := "/users/", Handlers := [.GetAllUsers] },
    { Method := "POST", Path := "/users/register", Handlers := [.RegisterUser] },
    { Method := "POST", Path := "/users/registerusersbyadmin",
      Handlers := [.RegisterUserByAdmin] },
    { Method := "GET", Path := "/users/slug/:slug", Handlers := [.GetUserBySlug] },
    { Method := "POST", Path := "/users/:id/update-password/admin",
      Handlers := [.UpdatePasswordByAdmin] },
    { Method := "GET", Path := "/users/:id", Handlers := [.GetUserByID] },
    { Method := "DELETE", Path := "/users/:id", Handlers := [.DeleteUser] },
    { Method := "PATCH", Path := "/users/:id", Handlers := [.UpdateUser] },
    { Method := "POST", Path := "/auth/password-reset", Handlers := [.RequestPasswordReset] },
    { Method := "POST", Path := "/auth/confirm-password-reset-otp",
      Handlers := [.ConfirmPasswordResetOtp] },
    { Method := "POST", Path := "/auth/login", Handlers := [.Login] },
    { Method := "POST", Path := "/auth/reset-password/email",
      Handlers := [.ResetPasswordViaEmail] },
    { Method := "POST", Path := "/auth/update-password", Handlers := [.UpdatePassword] },
    { Method := "POST", Path := "/auth/reset-password",
      Handlers := [.ResetPasswordWithToken] },
    { Method := "GET", Path := "/auth/check", Handlers := [.CheckAuth] } ]

/-- One handler run on the context and the users table. The handlers of the two
routes under study and the middleware are run; `none` stands for a handler whose
body is not part of this development. -/
def HandlerFunc.run (env : Env) : HandlerFunc → Context × Directory →
    Option (Context × Directory)
  | .AuthMiddleware, (c, db) => some (UserManagement.AuthMiddleware env c, db)
  | .CheckAuth, (c, db) => some (AuthController.CheckAuth c, db)
  | .UpdatePassword, (c, db) =>
    match AuthController.UpdatePassword env db c.userID c.body with
    | (response, db1) => some ({ c with response := some response }, db1)
  | _, _ => none

/-- The handler chain of gin (`c.Next`): the handlers run in order, and none runs
once the chain is aborted. -/
def runChain (env : Env) : List HandlerFunc → Context × Directory →
    Option (Context × Directory)
  | [], s => some s
  | h :: rest, s =>
    if s.1.aborted then some s
    else
      match h.run env s with
      | none => none
      | some s1 => runChain env rest s1

/-- The engine on one request to a static route: the chain registered for the
method and path runs on a new context; the result is the response written and the
users table afterwards. `none` when no static route of `SetupRouter` has that
method and path or a handler of the chain is not part of this development. -/
def ServeHTTP (env : Env) (db : Directory) (method path : String)
    (authorization : Authorization) (body : Except String UpdatePasswordRequest) :
    Option (Option HttpResponse × Directory) :=
  match SetupRouter.find? (fun r => r.Method == method && r.Path == path) with
  | none => none
  | some route =>
    match runChain env route.Handlers (Context.new authorization body, db) with
    | none => none
    | some (c, db1) => some (c.response, db1)

/-! ## utils/slug_utils.go -/

/-- The functions of Go's `unicode` package that `GenerateSlug` calls. -/
structure Unicode where
  IsLetter : Char → Bool
  IsNumber : Char → Bool
  IsSpace : Char → Bool
  ToLower : Char → Char

/-- The call `strings.Trim(s, "-")`, on the runes of `s`. -/
def trimHyphens (s : List Char) : List Char :=
  ((s.dropWhile (fun r => r == '-')).reverse.dropWhile (fun r => r == '-')).reverse

/-- The function `GenerateSlug`: letters and numbers in lower case, a hyphen for
every space, everything else dropped; hyphens at both ends trimmed; "user" when
nothing is left. -/
def GenerateSlug (uc : Unicode) (text : String) : String :=
  let slug := text.data.foldl (fun slug r =>
    if uc.IsLetter r || uc.IsNumber r then slug ++ [uc.ToLower r]
    else if uc.IsSpace r then slug ++ ['-']
    else slug) []
  let result := String.mk (trimHyphens slug)
  if result = "" then "user" else result

/-! ## services/user_service.go: RegisterUser -/

/-- The struct `models.CreateUserRequest`. -/
structure CreateUserRequest where
  ClientID : String
  Email : String
  FirstName : String
  LastName : String
  NationalID : Option String
  PassportNumber : Option String
  Password : String
  Phone : String
  ProfilePicture : Option String
  Username : String
deriving DecidableEq, Repr

/-- The answer of the database to one INSERT into the users table: the error, if
any (a violated unique index, a lost connection), and the primary key its default
`uuid_generate_v4()` produces for a row that comes without one. -/
structure Insert where
  err : Option String
  id : String
deriving DecidableEq, Repr

/-- The method `userRepository.Create`: the error, the users table afterwards and
the struct as the call leaves it. A stored row gets its key from the database when
it has none, and the creation instant in both timestamps. -/
def userRepository.Create (env : Env) (ins : Insert) (db : Directory) (user : User) :
    Option String × Directory × User :=
  match ins.err with
  | some err => (some err, db, user)
  | none =>
    let row : User :=
      { user with
        ID := if user.ID = "" then ins.id else user.ID
        CreatedAt := if user.CreatedAt = 0 then env.now else user.CreatedAt
        UpdatedAt := if user.UpdatedAt = 0 then env.now else user.UpdatedAt }
    (none, db ++ [row], row)

/-- The outcome of `userService.RegisterUser`: the returned pair as an `Except`,
the users table afterwards, and the record that was passed to `userRepo.Create`
(`none` when the call is not reached). -/
structure Registration where
  result : Except String User
  db : Directory
  handed : Option User
deriving DecidableEq, Repr

/-- The struct literal of `userService.RegisterUser` (lines 76-90). -/
def RegisterUser.record (uc : Unicode) (request : CreateUserRequest)
    (hashedPassword : String) : User :=
  { ID := ""
    ClientID := request.ClientID
    Email := request.Email
    FirstName := request.FirstName
    LastName := request.LastName
    NationalID := request.NationalID
    PassportNumber := request.PassportNumber
    Password := hashedPassword
    Phone := request.Phone
    ProfilePicture := request.ProfilePicture
    Username := request.Username
    Slug := GenerateSlug uc (request.FirstName ++ " " ++ request.LastName)
    Role := RoleUser
    Status := ActiveStatus
    CreatedAt := 0
    UpdatedAt := 0
    DeletedAt := none }

/-- The method `userService.RegisterUser`. -/
def RegisterUser (env : Env) (uc : Unicode) (ins : Insert) (db : Directory)
    (request : CreateUserRequest) : Registration :=
  match env.HashPassword request.Password with
  | (_, some err) => { result := .error err, db := db, handed := none }
  | (hashedPassword, none) =>
    let user := RegisterUser.record uc request hashedPassword
    match userRepository.Create env ins db user with
    | (some err, db1, _) => { result := .error err, db := db1, handed := some user }
    | (none, db1, user1) => { result := .ok user1, db := db1, handed := some user }

/-! ## Binary64 arithmetic (Go's float64) -/

/-- Rounding of a rational to the nearest integer, a tie going to the even one. -/
def roundHalfEven (x : ℚ) : ℤ :=
  if x - ⌊x⌋ < 1 / 2 then ⌊x⌋
  else if 1 / 2 < x - ⌊x⌋ then ⌊x⌋ + 1
  else if ⌊x⌋ % 2 = 0 then ⌊x⌋
  else ⌊x⌋ + 1

/-- The binary64 value nearest to the rational `q`, a tie going to the even
significand: `q` is rounded to 53 significant bits. It is the conversion
`float64(n)` of an integer and the rounding step of every binary64 operation. The
exponent range is not bounded here; the 64-bit integers and their quotients lie
well inside it. -/
def float64 (q : ℚ) : ℚ :=
  if q = 0 then 0
  else roundHalfEven (q / 2 ^ (Int.log 2 |q| - 52)) * 2 ^ (Int.log 2 |q| - 52)

/-- The function `math.Ceil`, on a binary64 value. -/
def Ceil (x : ℚ) : ℚ := ⌈x⌉

/-- The conversion `int(x)` of a binary64 value: the fraction is discarded. -/
def toInt (x : ℚ) : Int := if 0 ≤ x then ⌊x⌋ else ⌈x⌉

/-! ## services/user_service.go: GetAllUsers -/

/-- The struct `models.GetAllUsersRequest`. -/
structure GetAllUsersRequest where
  PageNumber : Int
  PageSize : Int
  From : String
  To : String
  Search : String
  Role : String
  Status : String
deriving DecidableEq, Repr

/-- The struct `models.PaginatedResponse`; `List` holds the users of the page. -/
structure PaginatedResponse where
  CurrentPage : Int
  LastPage : Int
  List : List User
  NextPage : Option Int
  PreviousPage : Option Int
  Status : String
  Total : Int
deriving DecidableEq, Repr

/-- Lines 32-37 of `userService.GetAllUsers`: a zero page number becomes 1, a zero
page size becomes 10. -/
def GetAllUsers.defaults (params : GetAllUsersRequest) : GetAllUsersRequest :=
  let params := if params.PageNumber = 0 then { params with PageNumber := 1 } else params
  if params.PageSize = 0 then { params with PageSize := 10 } else params

/-- Lines 44-47 of `userService.GetAllUsers`: the number of the last page,
`int(math.Ceil(float64(total) / float64(params.PageSize)))`, raised to 1 when it
is 0 while the total is positive. -/
def GetAllUsers.lastPage (total pageSize : Int) : Int :=
  let lastPage := toInt (Ceil (float64 (float64 total / float64 pageSize)))
  if lastPage = 0 ∧ total > 0 then 1 else lastPage

/-- The method `userService.GetAllUsers`. `FindAll` is the method of that name of
the repository the service holds (`s.userRepo`). The integers are Go's 64-bit
`int`; the sum and the difference below cannot wrap, as the one is taken under
`PageNumber < lastPage` and the other under `PageNumber > 1`. -/
def GetAllUsers (FindAll : GetAllUsersRequest → Except String (List User × Int))
    (params : GetAllUsersRequest) : Except String PaginatedResponse :=
  let params := GetAllUsers.defaults params
  match FindAll params with
  | .error err => .error err
  | .ok (users, total) =>
    let lastPage := GetAllUsers.lastPage total params.PageSize
    let nextPage := if params.PageNumber < lastPage then some (params.PageNumber + 1) else none
    let previousPage := if params.PageNumber > 1 then some (params.PageNumber - 1) else none
    .ok { CurrentPage := params.PageNumber
          LastPage := lastPage
          List := users
          NextPage := nextPage
          PreviousPage := previousPage
          Status := "success"
          Total := total }

/-! ## Well-formed directories -/

/-- The unique index on the email column, for the live rows: two live rows with
the same email are the same row. -/
def UniqueLiveEmails (db : Directory) : Prop :=
  ∀ a ∈ db, ∀ b ∈ db, a.DeletedAt = none → b.DeletedAt = none → a.Email = b.Email → a = b

/-- What `userRepository.UpdatePassword` does to one row. -/
def setPassword (id password : String) (now : Nat) (u : User) : User :=
  if u.ID = id ∧ u.DeletedAt = none then { u with Password := password, UpdatedAt := now } else u

/-! ## Sample data -/

/-- A user row with the given key columns and stored credential; the other columns
are blank. -/
def mkUser (id clientID email username password : String) : User :=
  { ID := id, ClientID := clientID, Email := email, FirstName := "", LastName := ""
    NationalID := none, PassportNumber := none, Password := password, Phone := ""
    ProfilePicture := none, Username := username, Slug := "", Role := RoleUser
    Status := ActiveStatus, CreatedAt := 0, UpdatedAt := 0, DeletedAt := none }

/-- A sample environment: every network operation succeeds, the hasher prefixes
the password with a marker, the draw yields the code 123456. -/
def demoEnv : Env :=
  { now := 1700000000 * second
    jwtKey := "session-secret"
    HashPassword := fun p => ("hash:" ++ p, none)
    CheckPasswordHash := fun p h => h == "hash:" ++ p
    draw := 23456
    emailCfg := { SMTPHost := "localhost", SMTPPort := 25, SMTPUsername := "",
                  SMTPPassword := "", FromEmail := "noreply@example.com" }
    dbFindError := none
    dbUpdateError := none
    redisGetError := none
    redisExecError := none
    redisDelError := none
    smtpError := none }

/-- Sample user: alice. -/
def alice : User := mkUser "1" "client-a" "alice@example.com" "alice" "hash:pw-a"

/-- Sample user whose email is the string that is alice's username. -/
def bob : User := mkUser "2" "client-b" "alice" "bob" "hash:pw-b"

/-- Sample user without an email on file. -/
def carol : User := mkUser "3" "client-c" "" "carol" "hash:pw-c"

/-- The sample environment with a cache whose transactions fail. -/
def demoEnvExecDown : Env := { demoEnv with redisExecError := some "connection refused" }

/-- A cache that already binds the code 123456 and alice's email to each other. -/
def demoStore : Store :=
  (Store.empty.set demoEnv.now "otp:123456" "alice@example.com" (5 * minute)).set
    demoEnv.now "email:alice@example.com" "123456" (5 * minute)

/-! ## Runs of the OTP reset path -/

/-- One call of the three operations that touch the one-time-code store. -/
inductive Call where
  | request (r : PasswordResetRequest)
  | viaEmail (r : ResetPasswordRequest)
  | confirm (r : ConfirmOtpRequest)

/-- The operation a call stands for. -/
def Call.run (env : Env) (db : Directory) (st : Store) : Call → Outcome
  | .request r => RequestPasswordReset env db st r
  | .viaEmail r => ResetPasswordViaEmail env db st r
  | .confirm r => ConfirmPasswordResetOtp env db st r

/-- The directory and store states reachable from a directory `db₀` and the empty
store by a sequence of calls, each in its own environment. -/
inductive Reachable (db₀ : Directory) : Directory → Store → Prop
  | init : Reachable db₀ db₀ Store.empty
  | step {db : Directory} {st : Store} (env : Env) (call : Call) :
      Reachable db₀ db st → Reachable db₀ (call.run env db st).db (call.run env db st).store

/-- The code/email binding is bidirectional for the entries visible at instant `t`. -/
def Bidirectional (st : Store) (t : Nat) : Prop :=
  ∀ c e, st.get t ("otp:" ++ c) = some e ↔ st.get t ("email:" ++ e) = some c

/-- An issuing call is fresh when the store holds no entry under the code it
generates nor under the email it addresses; a confirm call is always fresh. -/
def Call.fresh (env : Env) (db : Directory) (st : Store) : Call → Prop
  | .request r => ∀ user, RequestPasswordReset.lookup env db r = some (.ok user) →
      st ("otp:" ++ GenerateOTP env) = none ∧ st ("email:" ++ user.Email) = none
  | .viaEmail r => ∀ user, ResetPasswordViaEmail.lookup env db r = some (.ok user) →
      st ("otp:" ++ GenerateOTP env) = none ∧ st ("email:" ++ user.Email) = none
  | .confirm _ => True

/-- The states reachable by sequences of calls in which every issuing call is fresh. -/
inductive FreshReachable (db₀ : Directory) : Directory → Store → Prop
  | init : FreshReachable db₀ db₀ Store.empty
  | step {db : Directory} {st : Store} (env : Env) (call : Call) :
      FreshReachable db₀ db st → call.fresh env db st →
      FreshReachable db₀ (call.run env db st).db (call.run env db st).store

/-- The entries of the store are paired: a code entry and the matching email
entry are held together, with the same expiry. -/
def Paired (st : Store) : Prop :=
  ∀ c e x, st ("otp:" ++ c) = some (e, x) ↔ st ("email:" ++ e) = some (c, x)

/-- A second sample environment, one second later, whose draw yields the code 654321. -/
def demoEnvLater : Env := { demoEnv with now := demoEnv.now + second, draw := 554321 }

/-- The outcome of alice's reset request in the sample environment, from the
empty store. -/
def demoRun1 : Outcome :=
  Call.run demoEnv [alice, bob] Store.empty (.request ⟨"", "alice"⟩)

/-- The outcome of a second reset request of alice, one second later. -/
def demoRun2 : Outcome :=
  Call.run demoEnvLater demoRun1.db demoRun1.store (.request ⟨"", "alice"⟩)

/-- The later sample environment with a cache whose `DEL` fails. -/
def demoEnvDelDown : Env := { demoEnvLater with redisDelError := some "connection reset" }

/-- The outcome of confirming alice's code 123456 while the `DEL` fails. -/
def demoConfirm1 : Outcome :=
  ConfirmPasswordResetOtp demoEnvDelDown demoRun1.db demoRun1.store ⟨"123456", "NewPass123"⟩

/-- The later sample environment with a hasher that fails. -/
def demoEnvHashDown : Env :=
  { demoEnvLater with HashPassword := fun _ => ("", some "hashing failed") }

/-- A sample environment whose clock stands half a second past a whole second. -/
def demoEnvHalf : Env := { demoEnv with now := demoEnv.now + 500000000 }

/-- The reset token issued for alice's email at the instant of `demoEnvHalf`. -/
def demoResetToken : Token :=
  .hs256 passwordResetSecret
    { UserID := "", Username := "", Role := ""
      Registered :=
        { Issuer := "", Subject := "alice@example.com", Audience := []
          ExpiresAt := some (NewNumericDate (demoEnvHalf.now + 1 * hour))
          NotBefore := none
          IssuedAt := some (NewNumericDate demoEnvHalf.now)
          ID := "" } }

/-! ## Sample data: registration -/

/-- The ASCII part of the `unicode` tables. -/
def demoUnicode : Unicode :=
  { IsLetter := Char.isAlpha, IsNumber := Char.isDigit, IsSpace := Char.isWhitespace
    ToLower := Char.toLower }

/-- A database that accepts the row and gives it the key "3". -/
def demoInsert : Insert := { err := none, id := "3" }

/-- A self-registration request. -/
def demoCreate : CreateUserRequest :=
  { ClientID := "client-d", Email := "dave@example.com", FirstName := "Dave"
    LastName := "Doe", NationalID := none, PassportNumber := none, Password := "secret1"
    Phone := "0788000004", ProfilePicture := none, Username := "dave" }

/-! ## Sample data: the protected routes -/

/-- The session token alice gets by logging in in the sample environment. -/
def demoSessionToken : Token :=
  .hs256 "session-secret" (issuedClaims demoEnv.now "1" "alice" "user")

/-- A well-formed body for POST /auth/update-password with alice's password. -/
def demoUpdateBody : UpdatePasswordRequest :=
  { NewPassword := "NewPass123", OldPassword := "pw-a" }

/-! ## Sample data: the user list -/

/-- A repository that finds 25 users and returns alice and bob as the page. -/
def demoFindAll : GetAllUsersRequest → Except String (List User × Int) :=
  fun _ => .ok ([alice, bob], 25)

/-- A list request for page 2 that leaves the page size to the default. -/
def demoList : GetAllUsersRequest :=
  { PageNumber := 2, PageSize := 0, From := "", To := "", Search := "", Role := ""
    Status := "" }

/-! ## Login: theorems -/

/-- The value of `second`. -/
theorem second_eq : second = 1000000000 := by unfold second; rfl

/-- The value of `minute` in seconds. -/
theorem minute_eq : minute = 60 * second := by unfold minute; rfl

/-- The value of `hour` in minutes. -/
theorem hour_eq : hour = 60 * minute := by unfold hour; rfl

/-- A second is a positive duration. -/
theorem second_pos : 0 < second := by rw [second_eq]; decide

/-- The expiry written by `GenerateJWT` lies less than one second before the end
of the 24-hour window. -/
theorem expiry_after (now now' : Nat) (h : now' + second ≤ now + 24 * hour) :
    now' < NewNumericDate (now + 24 * hour) * second := by
  unfold NewNumericDate
  have h1 := Nat.div_add_mod (now + 24 * hour) second
  have h2 : (now + 24 * hour) % second < second := Nat.mod_lt _ second_pos
  have h3 : second * ((now + 24 * hour) / second) = (now + 24 * hour) / second * second :=
    Nat.mul_comm _ _
  omega

/-- The function `GenerateJWT` never fails: it yields the HS256 token over the
issued claims under the package key. -/
theorem generate_eq (env : Env) (userID username role : String) :
    GenerateJWT env userID username role =
      .ok (.hs256 env.jwtKey (issuedClaims env.now userID username role)) := rfl

/-- The registered claims written by `GenerateJWT` pass the validator at every
instant before the expiry. -/
theorem validate_issued (now now' : Nat) (userID username role : String)
    (hlt : now' < NewNumericDate (now + 24 * hour) * second) :
    validateRegistered now' (issuedClaims now userID username role).Registered = none := by
  unfold validateRegistered issuedClaims
  dsimp only
  rw [if_pos hlt]

/-- A token issued by `GenerateJWT` validates under the same key at every instant
up to one second before the end of the 24-hour window, with the issued claims. -/
theorem validate_generated (key : String) (now now' : Nat) (userID username role : String)
    (h : now' + second ≤ now + 24 * hour) :
    ValidateJWT key now' (.hs256 key (issuedClaims now userID username role)) =
      .ok (issuedClaims now userID username role) := by
  have hv := validate_issued now now' userID username role (expiry_after now now' h)
  unfold ValidateJWT ParseWithClaims
  simp only [if_true]
  rw [hv]
  rfl

/-- What `Login` does once the identifier has resolved to a user. -/
theorem login_of_lookup (env : Env) (db : Directory) (request : LoginRequest) (u : User)
    (h : Login.lookup env db request = some (.ok u)) :
    Login env db request =
      if env.CheckPasswordHash request.Password u.Password = true then
        .ok { AccessToken := .hs256 env.jwtKey (issuedClaims env.now u.ID u.Username u.Role) }
      else .error "invalid credentials" := by
  unfold Login
  rw [h]
  dsimp only
  rw [generate_eq]
  by_cases hc : env.CheckPasswordHash request.Password u.Password = true
  · rw [if_pos hc, hc]; rfl
  · rw [if_neg hc]
    have hc' : env.CheckPasswordHash request.Password u.Password = false := by
      cases hb : env.CheckPasswordHash request.Password u.Password
      · rfl
      · exact absurd hb hc
    rw [hc']; rfl

/-- What `Login` does when the identifier resolves to no user. -/
theorem login_of_miss (env : Env) (db : Directory) (request : LoginRequest) (e : String)
    (h : Login.lookup env db request = some (.error e)) :
    Login env db request = .error "invalid credentials" := by
  unfold Login
  rw [h]

/-- How `Login` resolves a non-empty Username value. -/
theorem login_lookup_username (env : Env) (db : Directory) (request : LoginRequest)
    (hname : request.Username ≠ "") :
    Login.lookup env db request =
      match FindByUsername env db request.Username with
      | .ok user => some (.ok user)
      | .error _ => some (FindByEmail env db request.Username) := by
  unfold Login.lookup
  rw [if_pos hname]

/-- C1. For every directory and login request whose non-empty Username resolves to
a user `u` (by username, or by email when the username lookup misses) and whose
password verifies against the stored hash of `u`, `Login` succeeds with a token
that `ValidateJWT` accepts, under the same key, at every instant up to one second
before the end of the 24-hour window, yielding the ID, username and role of `u`. -/
theorem login_valid_credentials_token_verifies (env : Env) (db : Directory)
    (request : LoginRequest) (u : User)
    (hname : request.Username ≠ "")
    (hres : FindByUsername env db request.Username = .ok u ∨
      ((∃ e, FindByUsername env db request.Username = .error e) ∧
        FindByEmail env db request.Username = .ok u))
    (hpw : env.CheckPasswordHash request.Password u.Password = true) :
    ∃ t, Login env db request = .ok { AccessToken := t } ∧
      ∀ now', now' + second ≤ env.now + 24 * hour →
        ∃ claims, ValidateJWT env.jwtKey now' t = .ok claims ∧
          claims.UserID = u.ID ∧ claims.Username = u.Username ∧ claims.Role = u.Role := by
  have hl : Login.lookup env db request = some (.ok u) := by
    rw [login_lookup_username env db request hname]
    rcases hres with h | ⟨⟨e, he⟩, h⟩
    · rw [h]
    · rw [he, h]
  refine ⟨_, by rw [login_of_lookup env db request u hl, if_pos hpw], ?_⟩
  intro now' hnow
  exact ⟨_, validate_generated env.jwtKey env.now now' u.ID u.Username u.Role hnow, rfl, rfl, rfl⟩

/-- Witness for C1: bob logs in under his username with his password. -/
theorem login_valid_credentials_token_verifies_witness :
    ∃ t, Login demoEnv [alice, bob] ⟨"", "pw-b", "bob"⟩ = .ok { AccessToken := t } ∧
      ∀ now', now' + second ≤ demoEnv.now + 24 * hour →
        ∃ claims, ValidateJWT demoEnv.jwtKey now' t = .ok claims ∧
          claims.UserID = bob.ID ∧ claims.Username = bob.Username ∧ claims.Role = bob.Role :=
  login_valid_credentials_token_verifies demoEnv [alice, bob] ⟨"", "pw-b", "bob"⟩ bob
    (by decide) (Or.inl (by decide)) (by decide)

/-- C2. For every login request that supplies an identifier, `Login` returns the
same error, "invalid credentials", and no token, whether the identifier resolves
to no user or to a user whose stored hash does not verify the password: the two
results are equal. -/
theorem login_failures_indistinguishable (env₁ env₂ : Env) (db₁ db₂ : Directory)
    (r₁ r₂ : LoginRequest) (u : User)
    (_hid₁ : r₁.Username ≠ "" ∨ r₁.ClientID ≠ "")
    (_hid₂ : r₂.Username ≠ "" ∨ r₂.ClientID ≠ "")
    (hmiss : ∃ e, Login.lookup env₁ db₁ r₁ = some (.error e))
    (hhit : Login.lookup env₂ db₂ r₂ = some (.ok u))
    (hbad : env₂.CheckPasswordHash r₂.Password u.Password = false) :
    Login env₁ db₁ r₁ = .error "invalid credentials" ∧
      Login env₂ db₂ r₂ = .error "invalid credentials" ∧
      Login env₁ db₁ r₁ = Login env₂ db₂ r₂ := by
  obtain ⟨e, he⟩ := hmiss
  have h1 := login_of_miss env₁ db₁ r₁ e he
  have h2 : Login env₂ db₂ r₂ = .error "invalid credentials" := by
    rw [login_of_lookup env₂ db₂ r₂ u hhit, hbad]
    rfl
  exact ⟨h1, h2, h1.trans h2.symm⟩

/-- Witness for C2: an unknown name and a wrong password for alice. -/
theorem login_failures_indistinguishable_witness :
    Login demoEnv [alice, bob] ⟨"", "pw", "carol"⟩ = .error "invalid credentials" ∧
      Login demoEnv [alice, bob] ⟨"", "wrong", "alice"⟩ = .error "invalid credentials" ∧
      Login demoEnv [alice, bob] ⟨"", "pw", "carol"⟩ =
        Login demoEnv [alice, bob] ⟨"", "wrong", "alice"⟩ :=
  login_failures_indistinguishable demoEnv demoEnv [alice, bob] [alice, bob]
    ⟨"", "pw", "carol"⟩ ⟨"", "wrong", "alice"⟩ alice
    (Or.inl (by decide)) (Or.inl (by decide)) ⟨"record not found", by decide⟩
    (by decide) (by decide)

/-- Without any identifier the resolution of `Login` is the early return. -/
theorem login_lookup_none (env : Env) (db : Directory) (request : LoginRequest)
    (hu : request.Username = "") (hc : request.ClientID = "") :
    Login.lookup env db request = none := by
  unfold Login.lookup
  rw [if_neg (not_not.mpr hu), if_neg (not_not.mpr hc)]

/-- With an identifier the resolution of `Login` makes a repository call. -/
theorem login_lookup_some (env : Env) (db : Directory) (request : LoginRequest)
    (h : request.Username ≠ "" ∨ request.ClientID ≠ "") :
    ∃ r, Login.lookup env db request = some r := by
  unfold Login.lookup
  by_cases hu : request.Username ≠ ""
  · rw [if_pos hu]
    cases FindByUsername env db request.Username with
    | ok user => exact ⟨_, rfl⟩
    | error e => exact ⟨_, rfl⟩
  · rw [if_neg hu]
    have hc : request.ClientID ≠ "" := h.resolve_left hu
    rw [if_pos hc]
    exact ⟨_, rfl⟩

/-- Counterexample for C3: a request that supplies both a Username and a ClientID
is not rejected; alice is logged in under her username. -/
theorem login_both_identifiers_counterexample :
    (⟨"client-a", "pw-a", "alice"⟩ : LoginRequest).Username ≠ "" ∧
      (⟨"client-a", "pw-a", "alice"⟩ : LoginRequest).ClientID ≠ "" ∧
      Login demoEnv [alice, bob] ⟨"client-a", "pw-a", "alice"⟩ =
        .ok { AccessToken := .hs256 demoEnv.jwtKey
                (issuedClaims demoEnv.now alice.ID alice.Username alice.Role) } :=
  ⟨by decide, by decide,
    (login_of_lookup demoEnv [alice, bob] ⟨"client-a", "pw-a", "alice"⟩ alice
      (by decide)).trans (if_pos (by decide))⟩

/-- C3 (amended). `Login` fails with the missing-identifier error, issuing no
token, exactly when both Username and ClientID are empty; when the Username is
non-empty the ClientID is ignored, so a request with both is treated as the same
request without ClientID. -/
theorem login_missing_identifier_iff (env : Env) (db : Directory) (request : LoginRequest) :
    (Login env db request = .error "username or clientID is required for login" ↔
      request.Username = "" ∧ request.ClientID = "") ∧
    (request.Username ≠ "" →
      Login env db request = Login env db { request with ClientID := "" }) := by
  refine ⟨⟨?_, ?_⟩, ?_⟩
  · intro h
    by_contra hne
    have hid : request.Username ≠ "" ∨ request.ClientID ≠ "" := by
      by_cases hu : request.Username = ""
      · exact Or.inr (fun hc => hne ⟨hu, hc⟩)
      · exact Or.inl hu
    obtain ⟨r, hr⟩ := login_lookup_some env db request hid
    cases r with
    | error e =>
      rw [login_of_miss env db request e hr] at h
      exact absurd h (by decide)
    | ok u =>
      rw [login_of_lookup env db request u hr] at h
      by_cases hc : env.CheckPasswordHash request.Password u.Password = true
      · rw [if_pos hc] at h
        exact Except.noConfusion h
      · rw [if_neg hc] at h
        exact absurd h (by decide)
  · rintro ⟨hu, hc⟩
    unfold Login
    rw [login_lookup_none env db request hu hc]
  · intro hname
    have h1 := login_lookup_username env db request hname
    have h2 := login_lookup_username env db { request with ClientID := "" } hname
    unfold Login
    rw [h1, h2]

/-- Witness for C3 (amended): a request with neither identifier is rejected. -/
theorem login_missing_identifier_iff_witness :
    Login demoEnv [alice, bob] ⟨"", "pw-a", ""⟩ =
      .error "username or clientID is required for login" :=
  (login_missing_identifier_iff demoEnv [alice, bob] ⟨"", "pw-a", ""⟩).1.2 ⟨rfl, rfl⟩

/-- C4. For a non-empty Username value `x`, `Login` looks `x` up as a username
first and uses that user when found, whatever user has `x` as email: the password
is checked against that user and the token carries that identity. Only when the
username lookup misses is `x` looked up as an email. -/
theorem login_username_before_email (env : Env) (db : Directory) (request : LoginRequest)
    (hx : request.Username ≠ "") :
    (∀ a, FindByUsername env db request.Username = .ok a →
      Login env db request =
        if env.CheckPasswordHash request.Password a.Password = true then
          .ok { AccessToken := .hs256 env.jwtKey (issuedClaims env.now a.ID a.Username a.Role) }
        else .error "invalid credentials") ∧
    (∀ e, FindByUsername env db request.Username = .error e →
      (∀ b, FindByEmail env db request.Username = .ok b →
        Login env db request =
          if env.CheckPasswordHash request.Password b.Password = true then
            .ok { AccessToken := .hs256 env.jwtKey (issuedClaims env.now b.ID b.Username b.Role) }
          else .error "invalid credentials") ∧
      (∀ e', FindByEmail env db request.Username = .error e' →
        Login env db request = .error "invalid credentials")) := by
  have hl := login_lookup_username env db request hx
  refine ⟨?_, ?_⟩
  · intro a ha
    rw [ha] at hl
    exact login_of_lookup env db request a hl
  · intro e he
    rw [he] at hl
    refine ⟨?_, ?_⟩
    · intro b hb
      rw [hb] at hl
      exact login_of_lookup env db request b hl
    · intro e' he'
      rw [he'] at hl
      exact login_of_miss env db request e' hl

/-- Witness for C4: the string "alice" is alice's username and bob's email; bob's
password is checked against alice's hash and rejected. -/
theorem login_username_before_email_witness :
    FindByUsername demoEnv [alice, bob] "alice" = .ok alice ∧
      FindByEmail demoEnv [alice, bob] "alice" = .ok bob ∧
      Login demoEnv [alice, bob] ⟨"", "pw-b", "alice"⟩ = .error "invalid credentials" :=
  ⟨by decide, by decide,
    ((login_username_before_email demoEnv [alice, bob] ⟨"", "pw-b", "alice"⟩
      (by decide)).1 alice (by decide)).trans (if_neg (by decide))⟩

/-- C5 (the code at the failing input). Alice's client identifier is "client-a"
and her primary key is "1": a login by ClientID "client-a" with her password is
refused, and a login by ClientID "1" is accepted. -/
theorem login_client_id_is_matched_against_primary_key :
    alice.ClientID = "client-a" ∧ alice.ID = "1" ∧
      demoEnv.CheckPasswordHash "pw-a" alice.Password = true ∧
      Login demoEnv [alice, bob] ⟨"client-a", "pw-a", ""⟩ = .error "invalid credentials" ∧
      Login demoEnv [alice, bob] ⟨"1", "pw-a", ""⟩ =
        .ok { AccessToken := .hs256 demoEnv.jwtKey
                (issuedClaims demoEnv.now alice.ID alice.Username alice.Role) } :=
  ⟨by decide, by decide, by decide,
    login_of_miss demoEnv [alice, bob] ⟨"client-a", "pw-a", ""⟩ "record not found" (by decide),
    (login_of_lookup demoEnv [alice, bob] ⟨"1", "pw-a", ""⟩ alice (by decide)).trans
      (if_pos (by decide))⟩

/-! ## RequestPasswordReset: theorems -/

/-- What `RequestPasswordReset` does when the identifier resolves to no user. -/
theorem reset_of_miss (env : Env) (db : Directory) (st : Store)
    (request : PasswordResetRequest) (e : String)
    (h : RequestPasswordReset.lookup env db request = some (.error e)) :
    RequestPasswordReset env db st request =
      { result := .ok { Message := "If an account with that identifier exists, an OTP has been sent." }
        db := db, store := st, mails := [] } := by
  unfold RequestPasswordReset
  rw [h]

/-- What `RequestPasswordReset` does for a user without email. -/
theorem reset_of_no_email (env : Env) (db : Directory) (st : Store)
    (request : PasswordResetRequest) (user : User)
    (h : RequestPasswordReset.lookup env db request = some (.ok user))
    (hmail : user.Email = "") :
    RequestPasswordReset env db st request =
      { result := .error "user has no email", db := db, store := st, mails := [] } := by
  unfold RequestPasswordReset
  rw [h]
  dsimp only
  rw [if_pos hmail]

/-- C6. For every request with a supplied identifier that resolves to no user,
`RequestPasswordReset` returns success with exactly the generic message, leaves
the one-time-code store as it was and hands no message to the mail sender. -/
theorem reset_unknown_identifier_generic_success (env : Env) (db : Directory) (st : Store)
    (request : PasswordResetRequest)
    (_hid : request.Username ≠ "" ∨ request.ClientID ≠ "")
    (hmiss : ∃ e, RequestPasswordReset.lookup env db request = some (.error e)) :
    (RequestPasswordReset env db st request).result =
        .ok { Message := "If an account with that identifier exists, an OTP has been sent." } ∧
      (RequestPasswordReset env db st request).store = st ∧
      (RequestPasswordReset env db st request).mails = [] := by
  obtain ⟨e, he⟩ := hmiss
  rw [reset_of_miss env db st request e he]
  exact ⟨rfl, rfl, rfl⟩

/-- Witness for C6: a reset request for the unknown name dave. -/
theorem reset_unknown_identifier_generic_success_witness :
    (RequestPasswordReset demoEnv [alice, bob] demoStore ⟨"", "dave"⟩).result =
        .ok { Message := "If an account with that identifier exists, an OTP has been sent." } ∧
      (RequestPasswordReset demoEnv [alice, bob] demoStore ⟨"", "dave"⟩).store = demoStore ∧
      (RequestPasswordReset demoEnv [alice, bob] demoStore ⟨"", "dave"⟩).mails = [] :=
  reset_unknown_identifier_generic_success demoEnv [alice, bob] demoStore ⟨"", "dave"⟩
    (Or.inl (by decide)) ⟨"record not found", by decide⟩

/-- C7. For every request whose identifier resolves to a user with an empty email,
`RequestPasswordReset` returns the error "user has no email" (not the generic
success), leaves the one-time-code store as it was and hands no message to the
mail sender. -/
theorem reset_user_without_email_errors (env : Env) (db : Directory) (st : Store)
    (request : PasswordResetRequest) (user : User)
    (hres : RequestPasswordReset.lookup env db request = some (.ok user))
    (hmail : user.Email = "") :
    (RequestPasswordReset env db st request).result = .error "user has no email" ∧
      (RequestPasswordReset env db st request).store = st ∧
      (RequestPasswordReset env db st request).mails = [] := by
  rw [reset_of_no_email env db st request user hres hmail]
  exact ⟨rfl, rfl, rfl⟩

/-- Witness for C7: carol has no email on file. -/
theorem reset_user_without_email_errors_witness :
    (RequestPasswordReset demoEnv [alice, bob, carol] demoStore ⟨"", "carol"⟩).result =
        .error "user has no email" ∧
      (RequestPasswordReset demoEnv [alice, bob, carol] demoStore ⟨"", "carol"⟩).store = demoStore ∧
      (RequestPasswordReset demoEnv [alice, bob, carol] demoStore ⟨"", "carol"⟩).mails = [] :=
  reset_user_without_email_errors demoEnv [alice, bob, carol] demoStore ⟨"", "carol"⟩ carol
    (by decide) (by decide)

/-- Two failing queries of one call report the same error. -/
theorem first_error_eq (env : Env) (db : Directory) (c₁ c₂ : User → Bool) (e₁ e₂ : String)
    (h₁ : First env db c₁ = .error e₁) (h₂ : First env db c₂ = .error e₂) : e₁ = e₂ := by
  unfold First at h₁ h₂
  cases hd : env.dbFindError with
  | some e =>
    rw [hd] at h₁ h₂
    cases h₁
    cases h₂
    rfl
  | none =>
    rw [hd] at h₁ h₂
    dsimp only at h₁ h₂
    cases hf₁ : List.find? (fun u => u.DeletedAt.isNone && c₁ u) db with
    | some u => rw [hf₁] at h₁; cases h₁
    | none =>
      rw [hf₁] at h₁
      cases hf₂ : List.find? (fun u => u.DeletedAt.isNone && c₂ u) db with
      | some u => rw [hf₂] at h₂; cases h₂
      | none =>
        rw [hf₂] at h₂
        cases h₁
        cases h₂
        rfl

/-- Counterexample for C8: the value "alice@example.com" matches no username and
is alice's email; `Login` resolves it to alice, `RequestPasswordReset` resolves
it to no user and answers with the generic message. -/
theorem reset_lookup_email_counterexample :
    Login.lookup demoEnv [alice, bob] ⟨"", "pw-a", "alice@example.com"⟩ = some (.ok alice) ∧
      RequestPasswordReset.lookup demoEnv [alice, bob] ⟨"", "alice@example.com"⟩ =
        some (.error "record not found") ∧
      (RequestPasswordReset demoEnv [alice, bob] Store.empty ⟨"", "alice@example.com"⟩).result =
        .ok { Message := "If an account with that identifier exists, an OTP has been sent." } ∧
      (RequestPasswordReset demoEnv [alice, bob] Store.empty ⟨"", "alice@example.com"⟩).mails = [] := by
  refine ⟨by decide, by decide, ?_, ?_⟩
  · rw [reset_of_miss demoEnv [alice, bob] Store.empty ⟨"", "alice@example.com"⟩
      "record not found" (by decide)]
  · rw [reset_of_miss demoEnv [alice, bob] Store.empty ⟨"", "alice@example.com"⟩
      "record not found" (by decide)]

/-- C8 (amended). `RequestPasswordReset` resolves a non-empty Username by username
only, and an empty one by the ClientID value. For every directory and every pair
of Username and ClientID values its resolution equals that of `Login` (same user
or same miss) exactly when it is not the case that the Username is non-empty,
matches no username and equals a user's email; in that case `Login` finds the
user by email and `RequestPasswordReset` misses. -/
theorem reset_lookup_agrees_with_login_iff (env : Env) (db : Directory)
    (username clientID password : String) :
    RequestPasswordReset.lookup env db ⟨clientID, username⟩ =
        Login.lookup env db ⟨clientID, password, username⟩ ↔
      ¬ (username ≠ "" ∧ (∃ e, FindByUsername env db username = .error e) ∧
          (∃ b, FindByEmail env db username = .ok b)) := by
  unfold RequestPasswordReset.lookup Login.lookup
  dsimp only
  by_cases hu : username ≠ ""
  · rw [if_pos hu, if_pos hu]
    cases hF : FindByUsername env db username with
    | ok u =>
      dsimp only
      constructor
      · rintro - ⟨-, ⟨e, he⟩, -⟩
        cases he
      · intro _
        rfl
    | error e =>
      dsimp only
      cases hE : FindByEmail env db username with
      | ok b =>
        constructor
        · intro h
          cases h
        · intro h
          exact absurd ⟨hu, ⟨e, rfl⟩, ⟨b, rfl⟩⟩ h
      | error e' =>
        have : e = e' := first_error_eq env db _ _ e e' hF hE
        subst this
        constructor
        · rintro - ⟨-, -, ⟨b, hb⟩⟩
          cases hb
        · intro _
          rfl
  · rw [if_neg hu, if_neg hu]
    constructor
    · rintro - ⟨h, -⟩
      exact hu h
    · intro _
      rfl

/-! ## The one-time-code entries: theorems -/

/-- A minute is a positive duration. -/
theorem minute_pos : 0 < minute := by
  rw [minute_eq]
  exact Nat.mul_pos (by decide) second_pos

/-- The characters of an appended string. -/
theorem data_append (a b : String) : (a ++ b).data = a.data ++ b.data := rfl

/-- A code key and an email key are never the same cache key. -/
theorem otp_key_ne_email_key (c e : String) : "otp:" ++ c ≠ "email:" ++ e := by
  intro h
  have h2 := congrArg String.data h
  rw [data_append, data_append] at h2
  have h3 : ("otp:" : String).data = ['o', 't', 'p', ':'] := rfl
  have h4 : ("email:" : String).data = ['e', 'm', 'a', 'i', 'l', ':'] := rfl
  rw [h3, h4] at h2
  have h5 := (List.cons.inj h2).1
  exact absurd h5 (by decide)

/-- Distinct codes have distinct code keys. -/
theorem otp_key_inj (c c' : String) (h : "otp:" ++ c = "otp:" ++ c') : c = c' := by
  have h2 := congrArg String.data h
  rw [data_append, data_append] at h2
  exact String.ext (List.append_cancel_left h2)

/-- Distinct emails have distinct email keys. -/
theorem email_key_inj (e e' : String) (h : "email:" ++ e = "email:" ++ e') : e = e' := by
  have h2 := congrArg String.data h
  rw [data_append, data_append] at h2
  exact String.ext (List.append_cancel_left h2)

/-- The cache after the two `SET` commands of an issue. -/
theorem exec_ok (env : Env) (st : Store) (k₁ v₁ k₂ v₂ : String) (t₁ t₂ : Nat)
    (h : env.redisExecError = none) :
    Exec env st [(k₁, v₁, t₁), (k₂, v₂, t₂)] =
      (none, (st.set env.now k₁ v₁ t₁).set env.now k₂ v₂ t₂) := by
  unfold Exec
  rw [h]
  rfl

/-- A failed transaction leaves the cache as it was. -/
theorem exec_fail (env : Env) (st : Store) (cmds : List (String × String × Nat)) (err : String)
    (h : env.redisExecError = some err) :
    Exec env st cmds = (some err, st) := by
  unfold Exec
  rw [h]

/-- What `RequestPasswordReset` does when the cache transaction fails. -/
theorem reset_of_exec_fail (env : Env) (db : Directory) (st : Store)
    (request : PasswordResetRequest) (user : User) (err : String)
    (h : RequestPasswordReset.lookup env db request = some (.ok user))
    (hmail : user.Email ≠ "") (hx : env.redisExecError = some err) :
    RequestPasswordReset env db st request =
      { result := .error "failed to store OTP", db := db, store := st, mails := [] } := by
  unfold RequestPasswordReset
  rw [h]
  dsimp only
  rw [if_neg hmail, exec_fail env st _ err hx]

/-- The cache `RequestPasswordReset` leaves when the transaction commits, whatever
the outcome of the mail. -/
theorem reset_store_of_exec_ok (env : Env) (db : Directory) (st : Store)
    (request : PasswordResetRequest) (user : User)
    (h : RequestPasswordReset.lookup env db request = some (.ok user))
    (hmail : user.Email ≠ "") (hx : env.redisExecError = none) :
    (RequestPasswordReset env db st request).store =
      (st.set env.now ("otp:" ++ GenerateOTP env) user.Email (5 * minute)).set env.now
        ("email:" ++ user.Email) (GenerateOTP env) (5 * minute) := by
  unfold RequestPasswordReset
  rw [h]
  dsimp only
  rw [if_neg hmail, exec_ok env st _ _ _ _ _ _ hx]
  dsimp only
  unfold SendPasswordResetEmail
  dsimp only
  cases env.smtpError <;> rfl

/-- The entry a `SET` writes. -/
theorem set_same (st : Store) (now : Nat) (k v : String) (ttl : Nat) :
    st.set now k v ttl k = some (v, now + ttl) := by
  unfold Store.set
  rw [if_pos rfl]

/-- A `SET` leaves the other keys as they were. -/
theorem set_other (st : Store) (now : Nat) (k v : String) (ttl : Nat) (k' : String)
    (h : k' ≠ k) : st.set now k v ttl k' = st k' := by
  unfold Store.set
  rw [if_neg h]

/-- Counterexample for C9: the cache already binds the code 123456 and alice's
email to each other; a reset request for alice draws the same code and its
transaction fails. The call returns "failed to store OTP" and sends nothing, yet
both entries are visible in the store afterwards. -/
theorem reset_failed_transaction_counterexample :
    RequestPasswordReset.lookup demoEnvExecDown [alice, bob] ⟨"", "alice"⟩ = some (.ok alice) ∧
      alice.Email = "alice@example.com" ∧
      GenerateOTP demoEnvExecDown = "123456" ∧
      demoEnvExecDown.redisExecError = some "connection refused" ∧
      (RequestPasswordReset demoEnvExecDown [alice, bob] demoStore ⟨"", "alice"⟩).result =
        .error "failed to store OTP" ∧
      (RequestPasswordReset demoEnvExecDown [alice, bob] demoStore ⟨"", "alice"⟩).store.get
        demoEnvExecDown.now "otp:123456" = some "alice@example.com" ∧
      (RequestPasswordReset demoEnvExecDown [alice, bob] demoStore ⟨"", "alice"⟩).store.get
        demoEnvExecDown.now "email:alice@example.com" = some "123456" := by
  have h := reset_of_exec_fail demoEnvExecDown [alice, bob] demoStore ⟨"", "alice"⟩ alice
    "connection refused" (by decide) (by decide) rfl
  rw [h]
  exact ⟨by decide, by decide, by decide, rfl, rfl, by decide!, by decide!⟩

/-- C9 (amended). For every request that resolves to a user with non-empty email
`e` and for the generated code `c`: when the transaction commits, the store holds
"otp:"+c ↦ e and "email:"+e ↦ c, both expiring 5 minutes after the call, and every
other key is as before, whatever the outcome of the mail; when the transaction
fails, the call returns "failed to store OTP", hands no message to the mail
sender and leaves the store exactly as it was. -/
theorem reset_stores_both_entries_or_nothing (env : Env) (db : Directory) (st : Store)
    (request : PasswordResetRequest) (user : User)
    (hres : RequestPasswordReset.lookup env db request = some (.ok user))
    (hmail : user.Email ≠ "") :
    (env.redisExecError = none →
      (RequestPasswordReset env db st request).store ("otp:" ++ GenerateOTP env) =
          some (user.Email, env.now + 5 * minute) ∧
        (RequestPasswordReset env db st request).store ("email:" ++ user.Email) =
          some (GenerateOTP env, env.now + 5 * minute) ∧
        ∀ k, k ≠ "otp:" ++ GenerateOTP env → k ≠ "email:" ++ user.Email →
          (RequestPasswordReset env db st request).store k = st k) ∧
    (∀ err, env.redisExecError = some err →
      (RequestPasswordReset env db st request).result = .error "failed to store OTP" ∧
        (RequestPasswordReset env db st request).mails = [] ∧
        (RequestPasswordReset env db st request).store = st) := by
  refine ⟨?_, ?_⟩
  · intro hx
    rw [reset_store_of_exec_ok env db st request user hres hmail hx]
    refine ⟨?_, ?_, ?_⟩
    · rw [set_other _ _ _ _ _ _ (otp_key_ne_email_key _ _), set_same]
    · rw [set_same]
    · intro k h1 h2
      rw [set_other _ _ _ _ _ _ h2, set_other _ _ _ _ _ _ h1]
  · intro err hx
    rw [reset_of_exec_fail env db st request user err hres hmail hx]
    exact ⟨rfl, rfl, rfl⟩

/-- Witness for C9 (amended): alice's reset request against a working cache. -/
theorem reset_stores_both_entries_or_nothing_witness :
    (RequestPasswordReset demoEnv [alice, bob] Store.empty ⟨"", "alice"⟩).store
        ("otp:" ++ GenerateOTP demoEnv) = some (alice.Email, demoEnv.now + 5 * minute) ∧
      (RequestPasswordReset demoEnv [alice, bob] Store.empty ⟨"", "alice"⟩).store
        ("email:" ++ alice.Email) = some (GenerateOTP demoEnv, demoEnv.now + 5 * minute) :=
  ⟨((reset_stores_both_entries_or_nothing demoEnv [alice, bob] Store.empty ⟨"", "alice"⟩ alice
      (by decide) (by decide)).1 rfl).1,
   ((reset_stores_both_entries_or_nothing demoEnv [alice, bob] Store.empty ⟨"", "alice"⟩ alice
      (by decide) (by decide)).1 rfl).2.1⟩

/-! ## The bidirectional binding: theorems -/

/-- The two issuing operations are the same function of the Username and ClientID. -/
theorem viaEmail_eq_request (env : Env) (db : Directory) (st : Store) (r : ResetPasswordRequest) :
    ResetPasswordViaEmail env db st r = RequestPasswordReset env db st ⟨r.ClientID, r.Username⟩ := by
  unfold ResetPasswordViaEmail RequestPasswordReset ResetPasswordViaEmail.lookup
    RequestPasswordReset.lookup
  rfl

/-- The resolutions of the two issuing operations coincide. -/
theorem viaEmail_lookup_eq (env : Env) (db : Directory) (r : ResetPasswordRequest) :
    ResetPasswordViaEmail.lookup env db r =
      RequestPasswordReset.lookup env db ⟨r.ClientID, r.Username⟩ := rfl

/-- The store after `RequestPasswordReset`: unchanged, or with the two entries of
the resolved user written. -/
theorem request_store_cases (env : Env) (db : Directory) (st : Store) (r : PasswordResetRequest) :
    (RequestPasswordReset env db st r).store = st ∨
      ∃ user, RequestPasswordReset.lookup env db r = some (.ok user) ∧
        (RequestPasswordReset env db st r).store =
          (st.set env.now ("otp:" ++ GenerateOTP env) user.Email (5 * minute)).set env.now
            ("email:" ++ user.Email) (GenerateOTP env) (5 * minute) := by
  cases hl : RequestPasswordReset.lookup env db r with
  | none =>
    left
    unfold RequestPasswordReset
    rw [hl]
  | some res =>
    cases res with
    | error e =>
      left
      rw [reset_of_miss env db st r e hl]
    | ok user =>
      by_cases hmail : user.Email = ""
      · left
        rw [reset_of_no_email env db st r user hl hmail]
      · cases hx : env.redisExecError with
        | some err =>
          left
          rw [reset_of_exec_fail env db st r user err hl hmail hx]
        | none =>
          right
          exact ⟨user, rfl, reset_store_of_exec_ok env db st r user hl hmail hx⟩

/-- The directory is not touched by `RequestPasswordReset`. -/
theorem request_db (env : Env) (db : Directory) (st : Store) (r : PasswordResetRequest) :
    (RequestPasswordReset env db st r).db = db := by
  unfold RequestPasswordReset
  cases RequestPasswordReset.lookup env db r with
  | none => rfl
  | some res =>
    cases res with
    | error e => rfl
    | ok user =>
      dsimp only
      by_cases hmail : user.Email = ""
      · rw [if_pos hmail]
      · rw [if_neg hmail]
        unfold Exec SendPasswordResetEmail
        cases env.redisExecError <;> cases env.smtpError <;> rfl

/-- The store after `ConfirmPasswordResetOtp`: unchanged, or with the redeemed code
entry and the email entry of its value deleted. -/
theorem confirm_store_cases (env : Env) (db : Directory) (st : Store) (req : ConfirmOtpRequest) :
    (ConfirmPasswordResetOtp env db st req).store = st ∨
      ∃ email x, st ("otp:" ++ req.Otp) = some (email, x) ∧
        (ConfirmPasswordResetOtp env db st req).store =
          st.del ["otp:" ++ req.Otp, "email:" ++ email] := by
  unfold ConfirmPasswordResetOtp
  cases hg : Get env st ("otp:" ++ req.Otp) with
  | nil => left; rfl
  | err e => left; rfl
  | value email =>
    dsimp only
    cases FindByEmail env db email with
    | error e => left; rfl
    | ok user =>
      dsimp only
      cases hu : userRepository.UpdatePassword env db user.ID (env.HashPassword req.Password).1 with
      | mk oe db1 =>
        cases oe with
        | some e => left; rfl
        | none =>
          dsimp only
          unfold Del
          cases env.redisDelError with
          | some e => left; rfl
          | none =>
            right
            unfold Get at hg
            cases hge : env.redisGetError with
            | some e => rw [hge] at hg; cases hg
            | none =>
              rw [hge] at hg
              dsimp only at hg
              unfold Store.get at hg
              cases hs : st ("otp:" ++ req.Otp) with
              | none => rw [hs] at hg; cases hg
              | some p =>
                obtain ⟨v, x⟩ := p
                rw [hs] at hg
                dsimp only at hg
                by_cases hlt : env.now < x
                · rw [if_pos hlt] at hg
                  cases hg
                  exact ⟨email, x, rfl, rfl⟩
                · rw [if_neg hlt] at hg
                  cases hg

/-- The entry under a key after a `DEL`. -/
theorem del_apply (st : Store) (keys : List String) (k : String) :
    st.del keys k = if k ∈ keys then none else st k := rfl

/-- Writing the two entries of a fresh code and a fresh email keeps the store paired. -/
theorem paired_issue (st : Store) (now ttl : Nat) (c e : String) (hP : Paired st)
    (h1 : st ("otp:" ++ c) = none) (h2 : st ("email:" ++ e) = none) :
    Paired ((st.set now ("otp:" ++ c) e ttl).set now ("email:" ++ e) c ttl) := by
  intro c' e' x
  rw [set_other _ _ _ _ _ _ (otp_key_ne_email_key c' e)]
  by_cases hc : c' = c
  · subst hc
    rw [set_same]
    by_cases he : e' = e
    · subst he
      rw [set_same]
      constructor
      · intro h
        cases h
        rfl
      · intro h
        cases h
        rfl
    · rw [set_other _ _ _ _ _ _ (fun h => he (email_key_inj _ _ h)),
        set_other _ _ _ _ _ _ (fun h => otp_key_ne_email_key _ _ h.symm)]
      constructor
      · intro h
        cases h
        exact absurd rfl he
      · intro h
        rw [(hP c' e' x).mpr h] at h1
        cases h1
  · rw [set_other _ _ _ _ _ _ (fun h => hc (otp_key_inj _ _ h))]
    by_cases he : e' = e
    · subst he
      rw [set_same]
      constructor
      · intro h
        rw [(hP c' e' x).mp h] at h2
        cases h2
      · intro h
        cases h
        exact absurd rfl hc
    · rw [set_other _ _ _ _ _ _ (fun h => he (email_key_inj _ _ h)),
        set_other _ _ _ _ _ _ (fun h => otp_key_ne_email_key _ _ h.symm)]
      exact hP c' e' x

/-- Deleting a code entry together with the email entry of its value keeps the
store paired. -/
theorem paired_del (st : Store) (c em : String) (x₀ : Nat) (hP : Paired st)
    (h : st ("otp:" ++ c) = some (em, x₀)) :
    Paired (st.del ["otp:" ++ c, "email:" ++ em]) := by
  have h' : st ("email:" ++ em) = some (c, x₀) := (hP c em x₀).mp h
  intro c' e' x
  rw [del_apply, del_apply]
  by_cases hc : c' = c
  · subst hc
    rw [if_pos (List.mem_cons_self _ _)]
    by_cases he : e' = em
    · subst he
      rw [if_pos (List.mem_cons_of_mem _ (List.mem_cons_self _ _))]
      constructor <;> intro hf <;> cases hf
    · have hne : "email:" ++ e' ∉ ["otp:" ++ c', "email:" ++ em] := by
        intro hm
        rcases List.mem_cons.mp hm with h1 | h1
        · exact otp_key_ne_email_key _ _ h1.symm
        · rcases List.mem_cons.mp h1 with h2 | h2
          · exact he (email_key_inj _ _ h2)
          · cases h2
      rw [if_neg hne]
      constructor
      · intro hf
        cases hf
      · intro hf
        have := (hP c' e' x).mpr hf
        rw [h] at this
        cases this
        exact absurd rfl he
  · have hne : "otp:" ++ c' ∉ ["otp:" ++ c, "email:" ++ em] := by
      intro hm
      rcases List.mem_cons.mp hm with h1 | h1
      · exact hc (otp_key_inj _ _ h1)
      · rcases List.mem_cons.mp h1 with h2 | h2
        · exact otp_key_ne_email_key _ _ h2
        · cases h2
    rw [if_neg hne]
    by_cases he : e' = em
    · subst he
      rw [if_pos (List.mem_cons_of_mem _ (List.mem_cons_self _ _))]
      constructor
      · intro hf
        have := (hP c' e' x).mp hf
        rw [h'] at this
        cases this
        exact absurd rfl hc
      · intro hf
        cases hf
    · have hne2 : "email:" ++ e' ∉ ["otp:" ++ c, "email:" ++ em] := by
        intro hm
        rcases List.mem_cons.mp hm with h1 | h1
        · exact otp_key_ne_email_key _ _ h1.symm
        · rcases List.mem_cons.mp h1 with h2 | h2
          · exact he (email_key_inj _ _ h2)
          · cases h2
      rw [if_neg hne2]
      exact hP c' e' x

/-- The empty store is paired. -/
theorem paired_empty : Paired Store.empty := by
  intro c e x
  constructor <;> intro h <;> cases h

/-- In a paired store the binding is bidirectional at every instant. -/
theorem bidirectional_of_paired (st : Store) (hP : Paired st) (t : Nat) : Bidirectional st t := by
  intro c e
  unfold Store.get
  constructor
  · intro h
    cases hs : st ("otp:" ++ c) with
    | none => rw [hs] at h; cases h
    | some p =>
      obtain ⟨v, x⟩ := p
      rw [hs] at h
      dsimp only at h
      by_cases hlt : t < x
      · rw [if_pos hlt] at h
        cases h
        rw [(hP c e x).mp hs]
        dsimp only
        rw [if_pos hlt]
      · rw [if_neg hlt] at h
        cases h
  · intro h
    cases hs : st ("email:" ++ e) with
    | none => rw [hs] at h; cases h
    | some p =>
      obtain ⟨v, x⟩ := p
      rw [hs] at h
      dsimp only at h
      by_cases hlt : t < x
      · rw [if_pos hlt] at h
        cases h
        rw [(hP c e x).mpr hs]
        dsimp only
        rw [if_pos hlt]
      · rw [if_neg hlt] at h
        cases h

/-- Every store reached by fresh issues and confirms is paired. -/
theorem paired_of_fresh_reachable (db₀ db : Directory) (st : Store)
    (h : FreshReachable db₀ db st) : Paired st := by
  induction h with
  | init => exact paired_empty
  | step env call _ hf ih =>
    cases call with
    | request r =>
      show Paired (RequestPasswordReset env _ _ r).store
      rcases request_store_cases env _ _ r with h | ⟨user, hl, h⟩
      · rw [h]
        exact ih
      · rw [h]
        obtain ⟨f1, f2⟩ := hf user hl
        exact paired_issue _ _ _ _ _ ih f1 f2
    | viaEmail r =>
      show Paired (ResetPasswordViaEmail env _ _ r).store
      rw [viaEmail_eq_request]
      rcases request_store_cases env _ _ ⟨r.ClientID, r.Username⟩ with h | ⟨user, hl, h⟩
      · rw [h]
        exact ih
      · rw [h]
        obtain ⟨f1, f2⟩ := hf user ((viaEmail_lookup_eq env _ r).trans hl)
        exact paired_issue _ _ _ _ _ ih f1 f2
    | confirm r =>
      show Paired (ConfirmPasswordResetOtp env _ _ r).store
      rcases confirm_store_cases env _ _ r with h | ⟨email, x, hs, h⟩
      · rw [h]
        exact ih
      · rw [h]
        exact paired_del _ _ _ x ih hs

/-- Counterexample for C10: alice requests a reset twice, one second apart, and
the two calls draw the codes 123456 and 654321. In the store reached, the entry
"otp:123456" ↦ alice's email is visible while the email entry holds 654321. -/
theorem otp_binding_counterexample :
    Reachable [alice, bob] demoRun2.db demoRun2.store ∧
      demoRun2.store.get demoEnvLater.now ("otp:" ++ "123456") = some "alice@example.com" ∧
      demoRun2.store.get demoEnvLater.now ("email:" ++ "alice@example.com") = some "654321" ∧
      ¬ Bidirectional demoRun2.store demoEnvLater.now := by
  have h1 : demoRun2.store.get demoEnvLater.now ("otp:" ++ "123456") =
      some "alice@example.com" := by decide!
  have h2 : demoRun2.store.get demoEnvLater.now ("email:" ++ "alice@example.com") =
      some "654321" := by decide!
  refine ⟨Reachable.step demoEnvLater (.request ⟨"", "alice"⟩)
    (Reachable.step demoEnv (.request ⟨"", "alice"⟩) Reachable.init), h1, h2, ?_⟩
  intro hB
  have h3 := (hB "123456" "alice@example.com").mp h1
  rw [h2] at h3
  exact absurd h3 (by decide)

/-- C10 (amended). In every store state reachable from the empty store by a
sequence of `RequestPasswordReset`, `ResetPasswordViaEmail` and
`ConfirmPasswordResetOtp` calls in which every issuing call is fresh (the store
holds no entry under the code it generates nor under the email it addresses), the
code/email binding is bidirectional at every instant: "otp:"+c ↦ e is visible if
and only if "email:"+e ↦ c is visible. -/
theorem otp_binding_bidirectional_when_fresh (db₀ db : Directory) (st : Store)
    (h : FreshReachable db₀ db st) (t : Nat) : Bidirectional st t :=
  bidirectional_of_paired st (paired_of_fresh_reachable db₀ db st h) t

/-- Witness for C10 (amended): the store after alice's first reset request. -/
theorem otp_binding_bidirectional_when_fresh_witness :
    Bidirectional demoRun1.store demoEnv.now :=
  otp_binding_bidirectional_when_fresh [alice, bob] demoRun1.db demoRun1.store
    (FreshReachable.step demoEnv (.request ⟨"", "alice"⟩) FreshReachable.init
      (fun _ _ => ⟨rfl, rfl⟩)) demoEnv.now

/-! ## Issue and redeem: theorems -/

/-- What a `GET` sees after a `SET` of the same key, before the entry expires. -/
theorem get_set_same (st : Store) (now now' : Nat) (k v : String) (ttl : Nat)
    (h : now' < now + ttl) : (st.set now k v ttl).get now' k = some v := by
  unfold Store.get
  rw [set_same]
  dsimp only
  rw [if_pos h]

/-- A `GET` of another key is not affected by a `SET`. -/
theorem get_set_other (st : Store) (now now' : Nat) (k v : String) (ttl : Nat) (k' : String)
    (h : k' ≠ k) : (st.set now k v ttl).get now' k' = st.get now' k' := by
  unfold Store.get
  rw [set_other _ _ _ _ _ _ h]

/-- The call `Get` on a cache that answers. -/
theorem get_of_up (env : Env) (st : Store) (key : String) (h : env.redisGetError = none) :
    Get env st key =
      match st.get env.now key with
      | some v => .value v
      | none => .nil := by
  unfold Get
  rw [h]

/-- What `ConfirmPasswordResetOtp` does when the cache has no live entry for the code. -/
theorem confirm_of_nil (env : Env) (db : Directory) (st : Store) (req : ConfirmOtpRequest)
    (h : Get env st ("otp:" ++ req.Otp) = .nil) :
    ConfirmPasswordResetOtp env db st req =
      { result := .error "invalid or expired OTP", db := db, store := st, mails := [] } := by
  unfold ConfirmPasswordResetOtp
  rw [h]

/-- A reset request that resolved to a user with an email and returned success
committed its transaction. -/
theorem exec_ok_of_success (env : Env) (db : Directory) (st : Store)
    (request : PasswordResetRequest) (user : User) (m : SuccessResponse)
    (hres : RequestPasswordReset.lookup env db request = some (.ok user))
    (hmail : user.Email ≠ "")
    (hok : (RequestPasswordReset env db st request).result = .ok m) :
    env.redisExecError = none := by
  cases hx : env.redisExecError with
  | none => rfl
  | some err =>
    rw [reset_of_exec_fail env db st request user err hres hmail hx] at hok
    cases hok

/-- C11. For every user with non-empty email `e`: if `RequestPasswordReset`
succeeds from the empty store having generated code `c`, then redeeming `c`, on a
cache that answers and less than 5 minutes after the issue, recovers exactly `e`:
the lookup of "otp:"+c yields `e`, and `ConfirmPasswordResetOtp` called with `c`
goes on with `e` (it searches the directory for the email `e`, answers "user not
found" when the search fails, else writes the new hash to the user found and
deletes "otp:"+c and "email:"+e); and `ConfirmPasswordResetOtp` with any code
other than `c` fails with "invalid or expired OTP". -/
theorem otp_issue_then_redeem (env env' : Env) (db : Directory)
    (request : PasswordResetRequest) (user : User) (m : SuccessResponse)
    (hres : RequestPasswordReset.lookup env db request = some (.ok user))
    (hmail : user.Email ≠ "")
    (hok : (RequestPasswordReset env db Store.empty request).result = .ok m)
    (hup : env'.redisGetError = none)
    (hnow : env'.now < env.now + 5 * minute) :
    Get env' (RequestPasswordReset env db Store.empty request).store
        ("otp:" ++ GenerateOTP env) = .value user.Email ∧
      (∀ (db' : Directory) (password : String),
        ConfirmPasswordResetOtp env' db' (RequestPasswordReset env db Store.empty request).store
            ⟨GenerateOTP env, password⟩ =
          match FindByEmail env' db' user.Email with
          | .error _ =>
            { result := .error "user not found", db := db'
              store := (RequestPasswordReset env db Store.empty request).store, mails := [] }
          | .ok found =>
            match userRepository.UpdatePassword env' db' found.ID
                (env'.HashPassword password).1 with
            | (some e, db1) =>
              { result := .error e, db := db1
                store := (RequestPasswordReset env db Store.empty request).store, mails := [] }
            | (none, db1) =>
              { result := .ok { Message := "Password reset successful" }, db := db1
                store := Del env' (RequestPasswordReset env db Store.empty request).store
                  ["otp:" ++ GenerateOTP env, "email:" ++ user.Email]
                mails := [] }) ∧
      ∀ (db' : Directory) (c' password : String), c' ≠ GenerateOTP env →
        (ConfirmPasswordResetOtp env' db' (RequestPasswordReset env db Store.empty request).store
          ⟨c', password⟩).result = .error "invalid or expired OTP" := by
  have hx := exec_ok_of_success env db Store.empty request user m hres hmail hok
  rw [reset_store_of_exec_ok env db Store.empty request user hres hmail hx]
  have hget : Get env' ((Store.empty.set env.now ("otp:" ++ GenerateOTP env) user.Email
      (5 * minute)).set env.now ("email:" ++ user.Email) (GenerateOTP env) (5 * minute))
      ("otp:" ++ GenerateOTP env) = .value user.Email := by
    rw [get_of_up env' _ _ hup, get_set_other _ _ _ _ _ _ _ (otp_key_ne_email_key _ _),
      get_set_same _ _ _ _ _ _ hnow]
  refine ⟨hget, ?_, ?_⟩
  · intro db' password
    unfold ConfirmPasswordResetOtp
    dsimp only
    rw [hget]
  · intro db' c' password hc
    have hne : "otp:" ++ c' ≠ "otp:" ++ GenerateOTP env := fun h => hc (otp_key_inj _ _ h)
    have hg : Get env' ((Store.empty.set env.now ("otp:" ++ GenerateOTP env) user.Email
        (5 * minute)).set env.now ("email:" ++ user.Email) (GenerateOTP env) (5 * minute))
        ("otp:" ++ c') = .nil := by
      rw [get_of_up env' _ _ hup, get_set_other _ _ _ _ _ _ _ (otp_key_ne_email_key _ _),
        get_set_other _ _ _ _ _ _ _ hne]
      rfl
    rw [confirm_of_nil env' db' _ ⟨c', password⟩ hg]

/-- Witness for C11: alice's code 123456 is redeemed one second after the issue. -/
theorem otp_issue_then_redeem_witness :
    Get demoEnvLater (RequestPasswordReset demoEnv [alice, bob] Store.empty ⟨"", "alice"⟩).store
        ("otp:" ++ GenerateOTP demoEnv) = .value alice.Email ∧
      (∀ (db' : Directory) (password : String),
        ConfirmPasswordResetOtp demoEnvLater db'
            (RequestPasswordReset demoEnv [alice, bob] Store.empty ⟨"", "alice"⟩).store
            ⟨GenerateOTP demoEnv, password⟩ =
          match FindByEmail demoEnvLater db' alice.Email with
          | .error _ =>
            { result := .error "user not found", db := db'
              store := (RequestPasswordReset demoEnv [alice, bob] Store.empty ⟨"", "alice"⟩).store
              mails := [] }
          | .ok found =>
            match userRepository.UpdatePassword demoEnvLater db' found.ID
                (demoEnvLater.HashPassword password).1 with
            | (some e, db1) =>
              { result := .error e, db := db1
                store :=
                  (RequestPasswordReset demoEnv [alice, bob] Store.empty ⟨"", "alice"⟩).store
                mails := [] }
            | (none, db1) =>
              { result := .ok { Message := "Password reset successful" }, db := db1
                store := Del demoEnvLater
                  (RequestPasswordReset demoEnv [alice, bob] Store.empty ⟨"", "alice"⟩).store
                  ["otp:" ++ GenerateOTP demoEnv, "email:" ++ alice.Email]
                mails := [] }) ∧
      ∀ (db' : Directory) (c' password : String), c' ≠ GenerateOTP demoEnv →
        (ConfirmPasswordResetOtp demoEnvLater db'
          (RequestPasswordReset demoEnv [alice, bob] Store.empty ⟨"", "alice"⟩).store
          ⟨c', password⟩).result = .error "invalid or expired OTP" :=
  otp_issue_then_redeem demoEnv demoEnvLater [alice, bob] ⟨"", "alice"⟩ alice
    { Message := "Password reset OTP sent via email" } (by decide) (by decide) (by decide!) rfl
    (by
      show demoEnv.now + second < demoEnv.now + 5 * minute
      rw [minute_eq]
      have := second_pos
      omega)

/-! ## ConfirmPasswordResetOtp: theorems -/

/-- C13. For every store and directory and every code for which the store holds
no live "otp:"+code entry, `ConfirmPasswordResetOtp`, on a cache that answers the
lookup, returns "invalid or expired OTP" and leaves the directory and the store
unchanged. -/
theorem confirm_without_live_entry (env : Env) (db : Directory) (st : Store)
    (req : ConfirmOtpRequest) (hup : env.redisGetError = none)
    (hno : st.get env.now ("otp:" ++ req.Otp) = none) :
    (ConfirmPasswordResetOtp env db st req).result = .error "invalid or expired OTP" ∧
      (ConfirmPasswordResetOtp env db st req).db = db ∧
      (ConfirmPasswordResetOtp env db st req).store = st := by
  have hg : Get env st ("otp:" ++ req.Otp) = .nil := by
    rw [get_of_up env st _ hup, hno]
  rw [confirm_of_nil env db st req hg]
  exact ⟨rfl, rfl, rfl⟩

/-- Witness for C13: a code that was never issued. -/
theorem confirm_without_live_entry_witness :
    (ConfirmPasswordResetOtp demoEnv [alice, bob] Store.empty ⟨"000000", "NewPass123"⟩).result =
        .error "invalid or expired OTP" ∧
      (ConfirmPasswordResetOtp demoEnv [alice, bob] Store.empty ⟨"000000", "NewPass123"⟩).db =
        [alice, bob] ∧
      (ConfirmPasswordResetOtp demoEnv [alice, bob] Store.empty ⟨"000000", "NewPass123"⟩).store =
        Store.empty :=
  confirm_without_live_entry demoEnv [alice, bob] Store.empty ⟨"000000", "NewPass123"⟩ rfl rfl

/-- A successful `ConfirmPasswordResetOtp`, taken apart: the code had a live entry
with value `email`, the email resolved to a user, the password write succeeded,
and the store is what `Del` leaves. -/
theorem confirm_success_inv (env : Env) (db : Directory) (st : Store) (req : ConfirmOtpRequest)
    (m : SuccessResponse) (hok : (ConfirmPasswordResetOtp env db st req).result = .ok m) :
    ∃ email user db1,
      Get env st ("otp:" ++ req.Otp) = .value email ∧
      FindByEmail env db email = .ok user ∧
      userRepository.UpdatePassword env db user.ID (env.HashPassword req.Password).1 = (none, db1) ∧
      (ConfirmPasswordResetOtp env db st req).db = db1 ∧
      (ConfirmPasswordResetOtp env db st req).store =
        Del env st ["otp:" ++ req.Otp, "email:" ++ email] := by
  unfold ConfirmPasswordResetOtp at hok ⊢
  cases hg : Get env st ("otp:" ++ req.Otp) with
  | nil => rw [hg] at hok; cases hok
  | err e => rw [hg] at hok; cases hok
  | value email =>
    rw [hg] at hok
    dsimp only at hok ⊢
    cases hf : FindByEmail env db email with
    | error e => rw [hf] at hok; cases hok
    | ok user =>
      rw [hf] at hok
      dsimp only at hok ⊢
      cases hu : userRepository.UpdatePassword env db user.ID (env.HashPassword req.Password).1 with
      | mk oe db1 =>
        rw [hu] at hok
        cases oe with
        | some e => cases hok
        | none => exact ⟨email, user, db1, rfl, hf, hu, rfl, rfl⟩

/-- A live entry seen by `Get` is an entry of the store. -/
theorem entry_of_get_value (env : Env) (st : Store) (key v : String)
    (h : Get env st key = .value v) : ∃ x, st key = some (v, x) ∧ env.now < x := by
  unfold Get at h
  cases hge : env.redisGetError with
  | some e => rw [hge] at h; cases h
  | none =>
    rw [hge] at h
    dsimp only at h
    unfold Store.get at h
    cases hs : st key with
    | none => rw [hs] at h; cases h
    | some p =>
      obtain ⟨w, x⟩ := p
      rw [hs] at h
      dsimp only at h
      by_cases hlt : env.now < x
      · rw [if_pos hlt] at h
        cases h
        exact ⟨x, rfl, hlt⟩
      · rw [if_neg hlt] at h
        cases h

/-- A `GET` of a deleted key sees nothing. -/
theorem get_del_mem (st : Store) (keys : List String) (now : Nat) (k : String) (h : k ∈ keys) :
    (st.del keys).get now k = none := by
  unfold Store.get
  rw [del_apply, if_pos h]

/-- Counterexample for C14: alice's code 123456 is confirmed while the cache
`DEL` fails. The call succeeds, the entry "otp:123456" is still visible in the
resulting store, and a second confirm with the same code succeeds again. -/
theorem confirm_delete_failure_counterexample :
    demoConfirm1.result = .ok { Message := "Password reset successful" } ∧
      demoConfirm1.store.get demoEnvDelDown.now ("otp:" ++ "123456") = some "alice@example.com" ∧
      demoConfirm1.store.get demoEnvDelDown.now ("email:" ++ "alice@example.com") =
        some "123456" ∧
      (ConfirmPasswordResetOtp demoEnvDelDown demoConfirm1.db demoConfirm1.store
        ⟨"123456", "NewPass123"⟩).result = .ok { Message := "Password reset successful" } :=
  ⟨by decide!, by decide!, by decide!, by decide!⟩

/-- C14 (amended). For every state in which `ConfirmPasswordResetOtp` with code `c`
succeeds for the bound email `e` and the cache carries out the `DEL`, the
resulting store contains neither "otp:"+c nor "email:"+e, so a second
`ConfirmPasswordResetOtp` with the same code, on a cache that answers, fails with
"invalid or expired OTP". -/
theorem confirm_clears_entries_when_deleted (env : Env) (db : Directory) (st : Store)
    (req : ConfirmOtpRequest) (m : SuccessResponse)
    (hok : (ConfirmPasswordResetOtp env db st req).result = .ok m)
    (hdel : env.redisDelError = none) :
    ∃ e, Get env st ("otp:" ++ req.Otp) = .value e ∧
      (ConfirmPasswordResetOtp env db st req).store ("otp:" ++ req.Otp) = none ∧
      (ConfirmPasswordResetOtp env db st req).store ("email:" ++ e) = none ∧
      ∀ (env' : Env) (db' : Directory) (password : String), env'.redisGetError = none →
        (ConfirmPasswordResetOtp env' db' (ConfirmPasswordResetOtp env db st req).store
          ⟨req.Otp, password⟩).result = .error "invalid or expired OTP" := by
  obtain ⟨email, user, db1, hg, -, -, -, hs⟩ := confirm_success_inv env db st req m hok
  have hs' : (ConfirmPasswordResetOtp env db st req).store =
      st.del ["otp:" ++ req.Otp, "email:" ++ email] := by
    rw [hs]
    unfold Del
    rw [hdel]
  refine ⟨email, hg, ?_, ?_, ?_⟩
  · rw [hs', del_apply, if_pos (List.mem_cons_self _ _)]
  · rw [hs', del_apply, if_pos (List.mem_cons_of_mem _ (List.mem_cons_self _ _))]
  · intro env' db' password hup
    rw [hs']
    have hg' : Get env' (st.del ["otp:" ++ req.Otp, "email:" ++ email])
        ("otp:" ++ (⟨req.Otp, password⟩ : ConfirmOtpRequest).Otp) = .nil := by
      rw [get_of_up env' _ _ hup]
      show (match (st.del ["otp:" ++ req.Otp, "email:" ++ email]).get env'.now
        ("otp:" ++ req.Otp) with | some v => GetResult.value v | none => GetResult.nil) = .nil
      rw [get_del_mem _ _ _ _ (List.mem_cons_self _ _)]
    rw [confirm_of_nil env' db' _ ⟨req.Otp, password⟩ hg']

/-- Witness for C14 (amended): alice's code 123456 is confirmed on a working cache. -/
theorem confirm_clears_entries_when_deleted_witness :
    ∃ e, Get demoEnvLater demoRun1.store ("otp:" ++ "123456") = .value e ∧
      (ConfirmPasswordResetOtp demoEnvLater demoRun1.db demoRun1.store
        ⟨"123456", "NewPass123"⟩).store ("otp:" ++ "123456") = none ∧
      (ConfirmPasswordResetOtp demoEnvLater demoRun1.db demoRun1.store
        ⟨"123456", "NewPass123"⟩).store ("email:" ++ e) = none ∧
      ∀ (env' : Env) (db' : Directory) (password : String), env'.redisGetError = none →
        (ConfirmPasswordResetOtp env' db' (ConfirmPasswordResetOtp demoEnvLater demoRun1.db
          demoRun1.store ⟨"123456", "NewPass123"⟩).store
          ⟨"123456", password⟩).result = .error "invalid or expired OTP" :=
  confirm_clears_entries_when_deleted demoEnvLater demoRun1.db demoRun1.store
    ⟨"123456", "NewPass123"⟩ { Message := "Password reset successful" } (by decide!) rfl

/-! ## GenerateOTP: theorems -/

/-- One round of `Nat.toDigitsCore` when digits remain. -/
theorem toDigitsCore_step (fuel n : Nat) (ds : List Char) (h : n / 10 ≠ 0) :
    Nat.toDigitsCore 10 (fuel + 1) n ds =
      Nat.toDigitsCore 10 fuel (n / 10) (Nat.digitChar (n % 10) :: ds) := by
  show (if n / 10 = 0 then Nat.digitChar (n % 10) :: ds
    else Nat.toDigitsCore 10 fuel (n / 10) (Nat.digitChar (n % 10) :: ds)) = _
  rw [if_neg h]

/-- The last round of `Nat.toDigitsCore`. -/
theorem toDigitsCore_last (fuel n : Nat) (ds : List Char) (h : n / 10 = 0) :
    Nat.toDigitsCore 10 (fuel + 1) n ds = Nat.digitChar (n % 10) :: ds := by
  show (if n / 10 = 0 then Nat.digitChar (n % 10) :: ds
    else Nat.toDigitsCore 10 fuel (n / 10) (Nat.digitChar (n % 10) :: ds)) = _
  rw [if_pos h]

/-- The decimal rendering of a six-digit number. -/
theorem toString_six (n : Nat) (h1 : 100000 ≤ n) (h2 : n < 1000000) :
    toString n = String.mk
      [Nat.digitChar (n / 10 / 10 / 10 / 10 / 10 % 10), Nat.digitChar (n / 10 / 10 / 10 / 10 % 10),
       Nat.digitChar (n / 10 / 10 / 10 % 10), Nat.digitChar (n / 10 / 10 % 10),
       Nat.digitChar (n / 10 % 10), Nat.digitChar (n % 10)] := by
  show String.mk (Nat.toDigitsCore 10 (n + 1) n []) = _
  have hf : n + 1 = (n - 5) + 1 + 1 + 1 + 1 + 1 + 1 := by omega
  rw [hf, toDigitsCore_step _ _ _ (by omega), toDigitsCore_step _ _ _ (by omega),
    toDigitsCore_step _ _ _ (by omega), toDigitsCore_step _ _ _ (by omega),
    toDigitsCore_step _ _ _ (by omega), toDigitsCore_last _ _ _ (by omega)]

/-- A value below ten is rendered as a decimal digit. -/
theorem digitChar_isDigit (d : Nat) (h : d < 10) : (Nat.digitChar d).isDigit = true := by
  interval_cases d <;> rfl

/-- Only zero is rendered as the digit zero. -/
theorem digitChar_ne_zero (d : Nat) (h0 : 0 < d) (h : d < 10) : Nat.digitChar d ≠ '0' := by
  interval_cases d <;> decide

/-- Only nine is rendered as the digit nine. -/
theorem digitChar_eq_nine (d : Nat) (h : d < 10) (h9 : Nat.digitChar d = '9') : d = 9 := by
  interval_cases d <;> first | rfl | exact absurd h9 (by decide)

/-- C12. For every value the random source can return, `GenerateOTP` yields the
decimal rendering of an integer `n` with 100000 ≤ n < 999999: a string of exactly
six decimal digits whose leading digit is not zero; the value 999999 is never
produced. -/
theorem generate_otp_six_digits (env : Env) :
    ∃ n, GenerateOTP env = toString n ∧ 100000 ≤ n ∧ n < 999999 ∧
      (GenerateOTP env).length = 6 ∧
      (∀ ch ∈ (GenerateOTP env).data, ch.isDigit = true) ∧
      (GenerateOTP env).data.head? ≠ some '0' ∧
      GenerateOTP env ≠ "999999" := by
  have hlt : env.draw % (999999 - 100000) < 999999 - 100000 := Nat.mod_lt _ (by decide)
  have hn1 : 100000 ≤ env.draw % (999999 - 100000) + 100000 := by omega
  have hn2 : env.draw % (999999 - 100000) + 100000 < 999999 := by omega
  refine ⟨env.draw % (999999 - 100000) + 100000, rfl, hn1, hn2, ?_⟩
  have hs : GenerateOTP env = toString (env.draw % (999999 - 100000) + 100000) := rfl
  rw [hs]
  generalize env.draw % (999999 - 100000) + 100000 = n at hn1 hn2
  rw [toString_six n hn1 (by omega)]
  refine ⟨rfl, ?_, ?_, ?_⟩
  · intro ch hch
    simp only [List.mem_cons, List.mem_singleton, List.not_mem_nil, or_false] at hch
    rcases hch with h | h | h | h | h | h <;> rw [h] <;>
      exact digitChar_isDigit _ (Nat.mod_lt _ (by decide))
  · intro h
    have h0 : Nat.digitChar (n / 10 / 10 / 10 / 10 / 10 % 10) = '0' := Option.some.inj h
    exact digitChar_ne_zero _ (by omega) (Nat.mod_lt _ (by decide)) h0
  · intro h
    have hd := congrArg String.data h
    have h9 : ("999999" : String).data = ['9', '9', '9', '9', '9', '9'] := rfl
    rw [h9] at hd
    simp only [List.cons.injEq, and_true] at hd
    obtain ⟨a5, a4, a3, a2, a1, a0⟩ := hd
    have b5 := digitChar_eq_nine _ (Nat.mod_lt _ (by decide)) a5
    have b4 := digitChar_eq_nine _ (Nat.mod_lt _ (by decide)) a4
    have b3 := digitChar_eq_nine _ (Nat.mod_lt _ (by decide)) a3
    have b2 := digitChar_eq_nine _ (Nat.mod_lt _ (by decide)) a2
    have b1 := digitChar_eq_nine _ (Nat.mod_lt _ (by decide)) a1
    have b0 := digitChar_eq_nine _ (Nat.mod_lt _ (by decide)) a0
    omega

/-! ## The directory under a password write: theorems -/

/-- A query that finds a row: the database answered and the row is the first live
match of the table. -/
theorem first_ok_spec (env : Env) (db : Directory) (c : User → Bool) (w : User)
    (h : First env db c = .ok w) :
    env.dbFindError = none ∧ db.find? (fun u => u.DeletedAt.isNone && c u) = some w := by
  unfold First at h
  cases hd : env.dbFindError with
  | some e => rw [hd] at h; cases h
  | none =>
    rw [hd] at h
    dsimp only at h
    cases hf : List.find? (fun u => u.DeletedAt.isNone && c u) db with
    | none => rw [hf] at h; cases h
    | some u =>
      rw [hf] at h
      cases h
      exact ⟨rfl, rfl⟩

/-- A query on a database that answers returns the first live match. -/
theorem first_of_find (env : Env) (db : Directory) (c : User → Bool) (w : User)
    (hd : env.dbFindError = none)
    (hf : db.find? (fun u => u.DeletedAt.isNone && c u) = some w) :
    First env db c = .ok w := by
  unfold First
  rw [hd]
  dsimp only
  rw [hf]

/-- A row found by a query is a live row of the table that satisfies the condition. -/
theorem first_ok_mem (env : Env) (db : Directory) (c : User → Bool) (w : User)
    (h : First env db c = .ok w) : w ∈ db ∧ w.DeletedAt = none ∧ c w = true := by
  obtain ⟨-, hf⟩ := first_ok_spec env db c w h
  have hm := List.mem_of_find?_eq_some hf
  have hp := List.find?_some hf
  simp only [Bool.and_eq_true, Option.isNone_iff_eq_none] at hp
  exact ⟨hm, hp.1, hp.2⟩

/-- A successful password write maps `setPassword` over the table. -/
theorem update_ok_eq (env : Env) (db db1 : Directory) (id password : String)
    (h : userRepository.UpdatePassword env db id password = (none, db1)) :
    db1 = db.map (setPassword id password env.now) := by
  unfold userRepository.UpdatePassword at h
  cases hd : env.dbUpdateError with
  | some e => rw [hd] at h; cases h
  | none =>
    rw [hd] at h
    cases h
    rfl

/-- A failed password write leaves the table as it was. -/
theorem update_fail_eq (env : Env) (db db1 : Directory) (id password e : String)
    (h : userRepository.UpdatePassword env db id password = (some e, db1)) : db1 = db := by
  unfold userRepository.UpdatePassword at h
  cases hd : env.dbUpdateError with
  | some e' => rw [hd] at h; cases h; rfl
  | none => rw [hd] at h; cases h

/-- The password write keeps the deletion mark of a row. -/
theorem setPassword_deletedAt (id password : String) (now : Nat) (u : User) :
    (setPassword id password now u).DeletedAt = u.DeletedAt := by
  unfold setPassword
  split <;> rfl

/-- The row of the user whose password is written. -/
theorem setPassword_self (id password : String) (now : Nat) (u : User)
    (hid : u.ID = id) (hlive : u.DeletedAt = none) :
    setPassword id password now u = { u with Password := password, UpdatedAt := now } := by
  unfold setPassword
  rw [if_pos ⟨hid, hlive⟩]

/-- A row with another primary key is not touched by the password write. -/
theorem setPassword_other (id password : String) (now : Nat) (u : User) (hid : u.ID ≠ id) :
    setPassword id password now u = u := by
  unfold setPassword
  rw [if_neg (fun h => hid h.1)]

/-- A query whose condition does not read the password finds, after a password
write, the written version of the row it found before. -/
theorem first_map_setPassword (env env' : Env) (db : Directory) (c : User → Bool)
    (id password : String) (now : Nat) (w : User)
    (hc : ∀ u, c (setPassword id password now u) = c u)
    (hd : env'.dbFindError = none)
    (h : First env db c = .ok w) :
    First env' (db.map (setPassword id password now)) c = .ok (setPassword id password now w) := by
  obtain ⟨-, hf⟩ := first_ok_spec env db c w h
  apply first_of_find env' _ c _ hd
  rw [List.find?_map]
  have hcomp : ((fun u => u.DeletedAt.isNone && c u) ∘ setPassword id password now) =
      (fun u => u.DeletedAt.isNone && c u) := by
    funext u
    show ((setPassword id password now u).DeletedAt.isNone &&
      c (setPassword id password now u)) = _
    rw [setPassword_deletedAt, hc]
  rw [hcomp, hf]
  rfl

/-- The password write keeps the username of a row. -/
theorem setPassword_username (id password : String) (now : Nat) (u : User) :
    (setPassword id password now u).Username = u.Username := by
  unfold setPassword
  split <;> rfl

/-- The password write keeps the email of a row. -/
theorem setPassword_email (id password : String) (now : Nat) (u : User) :
    (setPassword id password now u).Email = u.Email := by
  unfold setPassword
  split <;> rfl

/-- The password write keeps the primary key of a row. -/
theorem setPassword_id (id password : String) (now : Nat) (u : User) :
    (setPassword id password now u).ID = u.ID := by
  unfold setPassword
  split <;> rfl

/-! ## The OTP reset path end to end: theorems -/

/-- C15. For every directory with unique live emails that contains a user with
username `u` and non-empty email: if `RequestPasswordReset(u)` succeeds emitting
code `c` and `ConfirmPasswordResetOtp(c, p)` then succeeds, the directory after
the confirm is the old one with the hash of `p` written to the rows of that user
(every row with another primary key is as before), and a subsequent
`Login(u, p)` on a directory that answers succeeds, provided the hasher verifies
`p` against the hash it made of `p`. -/
theorem otp_reset_end_to_end (envR envC envL : Env) (db : Directory) (st : Store)
    (u p : String) (user : User) (m₁ m₂ : SuccessResponse)
    (huniq : UniqueLiveEmails db)
    (hu : u ≠ "")
    (hfind : FindByUsername envR db u = .ok user)
    (hmail : user.Email ≠ "")
    (hreq : (RequestPasswordReset envR db st ⟨"", u⟩).result = .ok m₁)
    (hconf : (ConfirmPasswordResetOtp envC db (RequestPasswordReset envR db st ⟨"", u⟩).store
      ⟨GenerateOTP envR, p⟩).result = .ok m₂)
    (hhash : envL.CheckPasswordHash p (envC.HashPassword p).1 = true)
    (hdb : envL.dbFindError = none) :
    (ConfirmPasswordResetOtp envC db (RequestPasswordReset envR db st ⟨"", u⟩).store
        ⟨GenerateOTP envR, p⟩).db =
        db.map (setPassword user.ID (envC.HashPassword p).1 envC.now) ∧
      (∀ (i : Nat) (w : User), db[i]? = some w → w.ID ≠ user.ID →
        (ConfirmPasswordResetOtp envC db (RequestPasswordReset envR db st ⟨"", u⟩).store
          ⟨GenerateOTP envR, p⟩).db[i]? = some w) ∧
      FindByUsername envL (ConfirmPasswordResetOtp envC db
          (RequestPasswordReset envR db st ⟨"", u⟩).store ⟨GenerateOTP envR, p⟩).db u =
        .ok { user with Password := (envC.HashPassword p).1, UpdatedAt := envC.now } ∧
      ∃ t, Login envL (ConfirmPasswordResetOtp envC db
          (RequestPasswordReset envR db st ⟨"", u⟩).store ⟨GenerateOTP envR, p⟩).db
          ⟨"", p, u⟩ = .ok { AccessToken := t } := by
  -- the request resolved to `user` and committed its transaction
  have hl : RequestPasswordReset.lookup envR db ⟨"", u⟩ = some (.ok user) := by
    unfold RequestPasswordReset.lookup
    rw [if_pos hu, hfind]
  have hx := exec_ok_of_success envR db st ⟨"", u⟩ user m₁ hl hmail hreq
  have hst := reset_store_of_exec_ok envR db st ⟨"", u⟩ user hl hmail hx
  -- the confirm, taken apart
  obtain ⟨email, user', db1, hg, hf, hupd, hdb1, -⟩ :=
    confirm_success_inv envC db _ ⟨GenerateOTP envR, p⟩ m₂ hconf
  -- the code is bound to the email of `user`
  have hemail : email = user.Email := by
    obtain ⟨x, hx1, -⟩ := entry_of_get_value envC _ _ email hg
    rw [hst] at hx1
    have hx2 : ((st.set envR.now ("otp:" ++ GenerateOTP envR) user.Email (5 * minute)).set
        envR.now ("email:" ++ user.Email) (GenerateOTP envR) (5 * minute))
        ("otp:" ++ GenerateOTP envR) = some (user.Email, envR.now + 5 * minute) := by
      rw [set_other _ _ _ _ _ _ (otp_key_ne_email_key _ _), set_same]
    rw [hx2] at hx1
    cases hx1
    rfl
  subst hemail
  -- the email resolves to `user` itself
  obtain ⟨hm1, hlive1, hc1⟩ := first_ok_mem envR db _ user hfind
  obtain ⟨hm2, hlive2, hc2⟩ := first_ok_mem envC db _ user' hf
  have hsame : user' = user :=
    huniq user' hm2 user hm1 hlive2 hlive1 (of_decide_eq_true hc2)
  subst hsame
  have hdbeq := update_ok_eq envC db db1 _ _ hupd
  rw [hdb1, hdbeq]
  have hfind' : FindByUsername envL
      (db.map (setPassword user'.ID (envC.HashPassword p).1 envC.now)) u =
      .ok { user' with Password := (envC.HashPassword p).1, UpdatedAt := envC.now } := by
    have h1 := first_map_setPassword envR envL db (fun w => w.Username == u) user'.ID
      (envC.HashPassword p).1 envC.now user'
      (fun w => by show ((setPassword _ _ _ w).Username == u) = (w.Username == u)
                   rw [setPassword_username]) hdb hfind
    rw [setPassword_self _ _ _ user' rfl hlive2] at h1
    exact h1
  refine ⟨rfl, ?_, hfind', ?_⟩
  · intro i w hi hne
    rw [List.getElem?_map, hi]
    show some (setPassword _ _ _ w) = some w
    rw [setPassword_other _ _ _ w hne]
  · obtain ⟨w, hw, hpw⟩ : ∃ w : User, FindByUsername envL
        (db.map (setPassword user'.ID (envC.HashPassword p).1 envC.now)) u = .ok w ∧
        w.Password = (envC.HashPassword p).1 :=
      ⟨{ user' with Password := (envC.HashPassword p).1, UpdatedAt := envC.now }, hfind', rfl⟩
    have hlk : Login.lookup envL (db.map (setPassword user'.ID (envC.HashPassword p).1 envC.now))
        ⟨"", p, u⟩ = some (.ok w) := by
      rw [login_lookup_username envL _ ⟨"", p, u⟩ hu]
      show (match FindByUsername envL _ u with
        | .ok user => some (Except.ok user)
        | .error _ => some (FindByEmail envL _ u)) = _
      rw [hw]
    have hlogin := login_of_lookup envL _ ⟨"", p, u⟩ w hlk
    exact ⟨_, hlogin.trans (if_pos (by rw [hpw]; exact hhash))⟩

/-- Witness for C15: alice requests a reset, confirms the code 123456 with a new
password one second later and logs in with it. -/
theorem otp_reset_end_to_end_witness :
    ∃ t, Login demoEnvLater (ConfirmPasswordResetOtp demoEnvLater [alice, bob]
        (RequestPasswordReset demoEnv [alice, bob] Store.empty ⟨"", "alice"⟩).store
        ⟨GenerateOTP demoEnv, "NewPass123"⟩).db ⟨"", "NewPass123", "alice"⟩ =
      .ok { AccessToken := t } :=
  (otp_reset_end_to_end demoEnv demoEnvLater demoEnvLater [alice, bob] Store.empty
    "alice" "NewPass123" alice { Message := "Password reset OTP sent via email" }
    { Message := "Password reset successful" }
    (by unfold UniqueLiveEmails; decide) (by decide) (by decide) (by decide) (by decide!)
    (by decide!) (by decide) rfl).2.2.2

/-! ## Hashing failures: theorems -/

/-- C16 (the code at the failing input). With a hasher that fails,
`ConfirmPasswordResetOtp` for alice's live code 123456 returns success and
overwrites her stored credential with the string the failed hasher returned,
while `UpdatePassword` and `ResetPasswordWithToken` return the hasher's error and
leave the directory unchanged. -/
theorem confirm_discards_hash_failure :
    demoEnvHashDown.HashPassword "NewPass123" = ("", some "hashing failed") ∧
      (ConfirmPasswordResetOtp demoEnvHashDown demoRun1.db demoRun1.store
        ⟨"123456", "NewPass123"⟩).result = .ok { Message := "Password reset successful" } ∧
      demoRun1.db.map User.Password = ["hash:pw-a", "hash:pw-b"] ∧
      (ConfirmPasswordResetOtp demoEnvHashDown demoRun1.db demoRun1.store
        ⟨"123456", "NewPass123"⟩).db.map User.Password = ["", "hash:pw-b"] ∧
      authService.UpdatePassword demoEnvHashDown [alice, bob] "1" ⟨"NewPass123", "pw-a"⟩ =
        (.error "hashing failed", [alice, bob]) ∧
      ResetPasswordWithToken demoEnvHashDown [alice, bob] demoResetToken "NewPass123" =
        (.error "hashing failed", [alice, bob]) :=
  ⟨rfl, by decide!, by decide!, by decide!, by decide!, by decide!⟩

/-! ## The reset token: theorems -/

/-- A numeric date lies less than one second before the instant it truncates. -/
theorem numericDate_after (t now' : Nat) (h : now' + second ≤ t) :
    now' < NewNumericDate t * second := by
  unfold NewNumericDate
  have h1 := Nat.div_add_mod t second
  have h2 : t % second < second := Nat.mod_lt _ second_pos
  have h3 : second * (t / second) = t / second * second := Nat.mul_comm _ _
  omega

/-- Counterexample for C17: a reset token for alice's email is issued half a
second past a whole second and verified one nanosecond less than an hour later;
the expiry, truncated to the second, has already passed. -/
theorem reset_token_last_second_counterexample :
    GeneratePasswordResetToken demoEnvHalf "alice@example.com" = .ok demoResetToken ∧
      demoEnvHalf.now ≤ demoEnvHalf.now + 1 * hour - 1 ∧
      demoEnvHalf.now + 1 * hour - 1 < demoEnvHalf.now + 1 * hour ∧
      VerifyPasswordResetToken (demoEnvHalf.now + 1 * hour - 1) demoResetToken =
        .error "token is expired" :=
  ⟨rfl, by decide!, by decide!, by decide!⟩

/-- The function `GeneratePasswordResetToken` never fails: it yields the HS256
token over the reset claims under the reset secret. -/
theorem generate_reset_eq (env : Env) (email : String) :
    GeneratePasswordResetToken env email =
      .ok (.hs256 passwordResetSecret (resetClaims env.now email)) := rfl

/-- The registered claims of a reset token pass the validator before the expiry. -/
theorem validate_reset (now now' : Nat) (email : String)
    (hlt : now' < NewNumericDate (now + 1 * hour) * second) :
    validateRegistered now' (resetClaims now email).Registered = none := by
  unfold validateRegistered resetClaims
  dsimp only
  rw [if_pos hlt]

/-- A well-formed token whose claims validate parses under the key it was signed with. -/
theorem parse_ok (now : Nat) (key : String) (claims : Claims)
    (hv : validateRegistered now claims.Registered = none) :
    ParseWithClaims now (.hs256 key claims) key = .ok { Claims := claims, Valid := true } := by
  unfold ParseWithClaims
  dsimp only
  rw [if_pos rfl, hv]

/-- What `VerifyPasswordResetToken` returns once the token has parsed. -/
theorem verify_of_parse (now : Nat) (t : Token) (claims : Claims)
    (h : ParseWithClaims now t passwordResetSecret = .ok { Claims := claims, Valid := true }) :
    VerifyPasswordResetToken now t = .ok claims.Registered.Subject := by
  unfold VerifyPasswordResetToken
  rw [h]
  rfl

/-- C17 (amended). For every email `e`, `GeneratePasswordResetToken(e)` returns a
token `t`, and `VerifyPasswordResetToken(t)`, evaluated at any instant up to one
second before the end of the hour that follows the issue, succeeds and returns
exactly `e`. -/
theorem reset_token_round_trip (env : Env) (email : String) (now' : Nat)
    (h : now' + second ≤ env.now + 1 * hour) :
    ∃ t, GeneratePasswordResetToken env email = .ok t ∧
      VerifyPasswordResetToken now' t = .ok email := by
  have hv := validate_reset env.now now' email (numericDate_after (env.now + 1 * hour) now' h)
  have hp := parse_ok now' passwordResetSecret (resetClaims env.now email) hv
  exact ⟨_, generate_reset_eq env email, verify_of_parse now' _ _ hp⟩

/-- Witness for C17 (amended): alice's token verified 59 minutes after the issue. -/
theorem reset_token_round_trip_witness :
    ∃ t, GeneratePasswordResetToken demoEnvHalf "alice@example.com" = .ok t ∧
      VerifyPasswordResetToken (demoEnvHalf.now + 59 * minute) t = .ok "alice@example.com" :=
  reset_token_round_trip demoEnvHalf "alice@example.com" (demoEnvHalf.now + 59 * minute)
    (by
      rw [hour_eq, minute_eq]
      have := second_pos
      omega)

/-- C18. For every token that `VerifyPasswordResetToken` rejects and every new
password, `ResetPasswordWithToken` returns "invalid or expired reset token" and
leaves the directory as it was, whatever the directory holds and whether or not
the database answers: no directory call is reached. -/
theorem reset_with_rejected_token (env : Env) (db : Directory) (tokenString : Token)
    (newPassword e : String)
    (h : VerifyPasswordResetToken env.now tokenString = .error e) :
    ResetPasswordWithToken env db tokenString newPassword =
      (.error "invalid or expired reset token", db) := by
  unfold ResetPasswordWithToken
  rw [h]

/-- Witness for C18: a string that is not a token. -/
theorem reset_with_rejected_token_witness :
    ResetPasswordWithToken demoEnv [alice, bob] (.other "not-a-token") "NewPass123" =
      (.error "invalid or expired reset token", [alice, bob]) :=
  reset_with_rejected_token demoEnv [alice, bob] (.other "not-a-token") "NewPass123"
    "token is malformed" rfl

/-! ## UpdatePassword: theorems -/

/-- What `authService.UpdatePassword` does when the old password does not verify. -/
theorem update_of_wrong_old (env : Env) (db : Directory) (userID : String)
    (request : UpdatePasswordRequest) (user : User)
    (hfind : FindByID env db userID = .ok user)
    (hbad : env.CheckPasswordHash request.OldPassword user.Password = false) :
    authService.UpdatePassword env db userID request =
      (.error "old password is incorrect", db) := by
  unfold authService.UpdatePassword
  rw [hfind]
  dsimp only
  rw [hbad]
  rfl

/-- Counterexample for C19: alice, authenticated, posts a wrong old password. The
handler answers with status 400, not 401. -/
theorem update_password_status_counterexample :
    FindByID demoEnv [alice, bob] "1" = .ok alice ∧
      demoEnv.CheckPasswordHash "wrong" alice.Password = false ∧
      AuthController.UpdatePassword demoEnv [alice, bob] (some "1")
          (.ok { NewPassword := "NewPass123", OldPassword := "wrong" }) =
        ({ status := 400, body := .error "old password is incorrect" }, [alice, bob]) ∧
      (AuthController.UpdatePassword demoEnv [alice, bob] (some "1")
          (.ok { NewPassword := "NewPass123", OldPassword := "wrong" })).1.status ≠
        StatusUnauthorized :=
  ⟨by decide, by decide, by decide, by decide⟩

/-- C19 (amended). For every existing user and every request whose OldPassword
does not verify against that user's stored hash, `UpdatePassword` returns the
error "old password is incorrect" and leaves the directory, hence the stored
credential, unchanged; the handler reports it with status 400 (Bad Request).
The directory changes only when the old password verifies. -/
theorem update_password_wrong_old (env : Env) (db : Directory) (userID : String)
    (request : UpdatePasswordRequest) (user : User)
    (hfind : FindByID env db userID = .ok user) :
    (env.CheckPasswordHash request.OldPassword user.Password = false →
      authService.UpdatePassword env db userID request =
          (.error "old password is incorrect", db) ∧
        AuthController.UpdatePassword env db (some userID) (.ok request) =
          ({ status := StatusBadRequest, body := .error "old password is incorrect" }, db)) ∧
    ((authService.UpdatePassword env db userID request).2 ≠ db →
      env.CheckPasswordHash request.OldPassword user.Password = true) := by
  refine ⟨?_, ?_⟩
  · intro hbad
    have h := update_of_wrong_old env db userID request user hfind hbad
    refine ⟨h, ?_⟩
    unfold AuthController.UpdatePassword
    dsimp only
    rw [h]
  · intro hne
    cases hc : env.CheckPasswordHash request.OldPassword user.Password with
    | true => rfl
    | false =>
      rw [update_of_wrong_old env db userID request user hfind hc] at hne
      exact absurd rfl hne

/-- Witness for C19 (amended): alice posts a wrong old password. -/
theorem update_password_wrong_old_witness :
    authService.UpdatePassword demoEnv [alice, bob] "1" ⟨"NewPass123", "wrong"⟩ =
        (.error "old password is incorrect", [alice, bob]) ∧
      AuthController.UpdatePassword demoEnv [alice, bob] (some "1")
          (.ok ⟨"NewPass123", "wrong"⟩) =
        ({ status := StatusBadRequest, body := .error "old password is incorrect" },
          [alice, bob]) :=
  (update_password_wrong_old demoEnv [alice, bob] "1" ⟨"NewPass123", "wrong"⟩ alice
    (by decide)).1 (by decide)

/-- A successful `authService.UpdatePassword`, taken apart: the user exists, the
old password verified, the hasher succeeded and the hash was written. -/
theorem update_success_inv (env : Env) (db : Directory) (userID : String)
    (request : UpdatePasswordRequest) (m : SuccessResponse)
    (hok : (authService.UpdatePassword env db userID request).1 = .ok m) :
    ∃ user h, FindByID env db userID = .ok user ∧
      env.CheckPasswordHash request.OldPassword user.Password = true ∧
      env.HashPassword request.NewPassword = (h, none) ∧
      (authService.UpdatePassword env db userID request).2 =
        db.map (setPassword userID h env.now) := by
  unfold authService.UpdatePassword at hok ⊢
  cases hf : FindByID env db userID with
  | error e => rw [hf] at hok; cases hok
  | ok user =>
    rw [hf] at hok
    dsimp only at hok ⊢
    cases hc : env.CheckPasswordHash request.OldPassword user.Password with
    | false => rw [hc] at hok; cases hok
    | true =>
      rw [hc] at hok
      cases hh : env.HashPassword request.NewPassword with
      | mk h oe =>
        rw [hh] at hok
        cases oe with
        | some e => cases hok
        | none =>
          dsimp only at hok ⊢
          cases hu : userRepository.UpdatePassword env db userID h with
          | mk ou db1 =>
            rw [hu] at hok
            cases ou with
            | some e => cases hok
            | none =>
              have hdb1 := update_ok_eq env db db1 userID h hu
              exact ⟨user, h, rfl, hc, rfl, hdb1⟩

/-- A user resolved by `Login` is a live row of the table. -/
theorem login_lookup_ok_mem (env : Env) (db : Directory) (request : LoginRequest) (w : User)
    (h : Login.lookup env db request = some (.ok w)) : w ∈ db ∧ w.DeletedAt = none := by
  unfold Login.lookup at h
  by_cases hu : request.Username ≠ ""
  · rw [if_pos hu] at h
    cases hF : FindByUsername env db request.Username with
    | ok a =>
      rw [hF] at h
      cases h
      exact ⟨(first_ok_mem env db _ w hF).1, (first_ok_mem env db _ w hF).2.1⟩
    | error e =>
      rw [hF] at h
      have hE : FindByEmail env db request.Username = .ok w := Option.some.inj h
      exact ⟨(first_ok_mem env db _ w hE).1, (first_ok_mem env db _ w hE).2.1⟩
  · rw [if_neg hu] at h
    by_cases hc : request.ClientID ≠ ""
    · rw [if_pos hc] at h
      have hI : FindByID env db request.ClientID = .ok w := Option.some.inj h
      exact ⟨(first_ok_mem env db _ w hI).1, (first_ok_mem env db _ w hI).2.1⟩
    · rw [if_neg hc] at h
      cases h

/-- After a password write, every live row with the written primary key holds the
new credential. -/
theorem password_of_mem_map (db : Directory) (id h : String) (now : Nat) (w : User)
    (hm : w ∈ db.map (setPassword id h now)) (hid : w.ID = id) (hlive : w.DeletedAt = none) :
    w.Password = h := by
  obtain ⟨v, -, hv⟩ := List.mem_map.mp hm
  have hvid : v.ID = id := by rw [← setPassword_id id h now v, hv, hid]
  have hvlive : v.DeletedAt = none := by rw [← setPassword_deletedAt id h now v, hv, hlive]
  rw [← hv, setPassword_self id h now v hvid hvlive]

/-- The resolution of `Login` does not read the password of the request. -/
theorem login_lookup_password (env : Env) (db : Directory) (cid p₁ p₂ un : String) :
    Login.lookup env db ⟨cid, p₁, un⟩ = Login.lookup env db ⟨cid, p₂, un⟩ := rfl

/-- A database that answers finds a live row with a given primary key when one
exists. -/
theorem findByID_of_mem (env : Env) (db : Directory) (id : String) (w : User)
    (hd : env.dbFindError = none) (hm : w ∈ db) (hid : w.ID = id) (hlive : w.DeletedAt = none) :
    ∃ w', FindByID env db id = .ok w' := by
  unfold FindByID First
  rw [hd]
  dsimp only
  cases hf : List.find? (fun u => u.DeletedAt.isNone && u.ID == id) db with
  | some w' => exact ⟨w', rfl⟩
  | none =>
    have hnone := List.find?_eq_none.mp hf w hm
    rw [hlive, hid] at hnone
    exact absurd (by simp) hnone

/-- Strings with the same marker in front are equal when the marked strings are. -/
theorem hash_marker_inj (a b : String) (h : "hash:" ++ a = "hash:" ++ b) : a = b := by
  have h2 := congrArg String.data h
  rw [data_append, data_append] at h2
  exact String.ext (List.append_cancel_left h2)

/-- C20. For every user and every new password different from the old one, after
`UpdatePassword(user id, old, new)` succeeds: a login that resolves to that user
succeeds with the new password and fails with "invalid credentials" with the old
one, and a further `UpdatePassword` that supplies the old password as old
password, on a directory that answers, fails with "old password is incorrect";
the hasher is assumed to verify exactly the password a hash was made from. -/
theorem update_password_then_login (envU envL envU2 : Env) (db : Directory)
    (id pOld pNew cid un : String) (m : SuccessResponse) (u' : User)
    (hne : pNew ≠ pOld)
    (hok : (authService.UpdatePassword envU db id ⟨pNew, pOld⟩).1 = .ok m)
    (hlk : Login.lookup envL (authService.UpdatePassword envU db id ⟨pNew, pOld⟩).2
      ⟨cid, pNew, un⟩ = some (.ok u'))
    (hid : u'.ID = id)
    (hL : ∀ q, envL.CheckPasswordHash q (envU.HashPassword pNew).1 = true ↔ q = pNew)
    (hU : ∀ q, envU2.CheckPasswordHash q (envU.HashPassword pNew).1 = true ↔ q = pNew)
    (hdb : envU2.dbFindError = none) :
    (∃ t, Login envL (authService.UpdatePassword envU db id ⟨pNew, pOld⟩).2 ⟨cid, pNew, un⟩ =
        .ok { AccessToken := t }) ∧
      Login envL (authService.UpdatePassword envU db id ⟨pNew, pOld⟩).2 ⟨cid, pOld, un⟩ =
        .error "invalid credentials" ∧
      ∀ pNext, authService.UpdatePassword envU2
          (authService.UpdatePassword envU db id ⟨pNew, pOld⟩).2 id ⟨pNext, pOld⟩ =
        (.error "old password is incorrect",
          (authService.UpdatePassword envU db id ⟨pNew, pOld⟩).2) := by
  obtain ⟨user, h, -, -, hh, hdb'⟩ := update_success_inv envU db id ⟨pNew, pOld⟩ m hok
  have hh1 : (envU.HashPassword pNew).1 = h := by
    have := congrArg Prod.fst hh
    exact this
  rw [hdb'] at hlk ⊢
  obtain ⟨hm, hlive⟩ := login_lookup_ok_mem envL _ _ u' hlk
  have hpw : u'.Password = h := password_of_mem_map db id h envU.now u' hm hid hlive
  have hnew : envL.CheckPasswordHash pNew u'.Password = true := by
    rw [hpw, ← hh1]
    exact (hL pNew).mpr rfl
  have hold : envL.CheckPasswordHash pOld u'.Password = false := by
    rw [hpw, ← hh1]
    cases hc : envL.CheckPasswordHash pOld (envU.HashPassword pNew).1 with
    | false => rfl
    | true => exact absurd ((hL pOld).mp hc).symm hne
  refine ⟨?_, ?_, ?_⟩
  · exact ⟨_, (login_of_lookup envL _ ⟨cid, pNew, un⟩ u' hlk).trans (if_pos hnew)⟩
  · have hlk' : Login.lookup envL (db.map (setPassword id h envU.now)) ⟨cid, pOld, un⟩ =
        some (.ok u') := (login_lookup_password envL _ cid pOld pNew un).trans hlk
    rw [login_of_lookup envL _ ⟨cid, pOld, un⟩ u' hlk']
    exact if_neg (by rw [hold]; exact Bool.false_ne_true)
  · intro pNext
    obtain ⟨w, hw⟩ := findByID_of_mem envU2 _ id u' hdb hm hid hlive
    obtain ⟨hwm, hwlive, hwc⟩ := first_ok_mem envU2 _ _ w hw
    have hwid : w.ID = id := of_decide_eq_true hwc
    have hwpw : w.Password = h := password_of_mem_map db id h envU.now w hwm hwid hwlive
    have hbad : envU2.CheckPasswordHash pOld w.Password = false := by
      rw [hwpw, ← hh1]
      cases hc : envU2.CheckPasswordHash pOld (envU.HashPassword pNew).1 with
      | false => rfl
      | true => exact absurd ((hU pOld).mp hc).symm hne
    exact update_of_wrong_old envU2 _ id ⟨pNext, pOld⟩ w hw hbad

/-- The sample hasher verifies exactly the password a hash was made from. -/
theorem demo_hasher_exact (p q : String) :
    demoEnvLater.CheckPasswordHash q (demoEnv.HashPassword p).1 = true ↔ q = p := by
  show (("hash:" ++ p) == ("hash:" ++ q)) = true ↔ q = p
  constructor
  · intro h
    exact (hash_marker_inj p q (of_decide_eq_true h)).symm
  · intro h
    subst h
    exact decide_eq_true rfl

/-- Witness for C20: alice changes her password from "pw-a" to "NewPass123". -/
theorem update_password_then_login_witness :
    (∃ t, Login demoEnvLater (authService.UpdatePassword demoEnv [alice, bob] "1"
        ⟨"NewPass123", "pw-a"⟩).2 ⟨"", "NewPass123", "alice"⟩ = .ok { AccessToken := t }) ∧
      Login demoEnvLater (authService.UpdatePassword demoEnv [alice, bob] "1"
        ⟨"NewPass123", "pw-a"⟩).2 ⟨"", "pw-a", "alice"⟩ = .error "invalid credentials" ∧
      ∀ pNext, authService.UpdatePassword demoEnvLater
          (authService.UpdatePassword demoEnv [alice, bob] "1" ⟨"NewPass123", "pw-a"⟩).2 "1"
          ⟨pNext, "pw-a"⟩ =
        (.error "old password is incorrect",
          (authService.UpdatePassword demoEnv [alice, bob] "1" ⟨"NewPass123", "pw-a"⟩).2) :=
  update_password_then_login demoEnv demoEnvLater demoEnvLater [alice, bob] "1" "pw-a"
    "NewPass123" "" "alice" { Message := "Password updated successfully" }
    { alice with Password := "hash:NewPass123", UpdatedAt := demoEnv.now }
    (by decide) (by decide!) (by decide!) rfl (demo_hasher_exact "NewPass123")
    (demo_hasher_exact "NewPass123") rfl

/-! ## The two issuing operations: theorems -/

/-- C26. For every directory state, store state, generated code and notification
outcome (all read from the environment), `ResetPasswordViaEmail` and
`RequestPasswordReset` called with requests carrying the same Username and
ClientID return the same result (message or error), leave the same store and the
same directory, and send the same notifications. -/
theorem reset_via_email_same_as_request (env : Env) (db : Directory) (st : Store)
    (clientID username : String) :
    (ResetPasswordViaEmail env db st { ClientID := clientID, Username := username }).result =
        (RequestPasswordReset env db st { ClientID := clientID, Username := username }).result ∧
      (ResetPasswordViaEmail env db st { ClientID := clientID, Username := username }).store =
        (RequestPasswordReset env db st { ClientID := clientID, Username := username }).store ∧
      (ResetPasswordViaEmail env db st { ClientID := clientID, Username := username }).mails =
        (RequestPasswordReset env db st { ClientID := clientID, Username := username }).mails ∧
      (ResetPasswordViaEmail env db st { ClientID := clientID, Username := username }).db =
        (RequestPasswordReset env db st { ClientID := clientID, Username := username }).db := by
  have h := viaEmail_eq_request env db st { ClientID := clientID, Username := username }
  exact ⟨congrArg Outcome.result h, congrArg Outcome.store h, congrArg Outcome.mails h,
    congrArg Outcome.db h⟩

/-! ## The session claims: theorems -/

/-- Counterexample for C23: the session token issued for alice half a second past
a whole second carries no issued-at claim, and its expiry is the whole second
below the instant 24 hours after the issue, not that instant. -/
theorem session_claims_counterexample :
    GenerateJWT demoEnvHalf "1" "alice" "user" =
        .ok (.hs256 "session-secret" (issuedClaims demoEnvHalf.now "1" "alice" "user")) ∧
      (issuedClaims demoEnvHalf.now "1" "alice" "user").Registered.IssuedAt = none ∧
      (issuedClaims demoEnvHalf.now "1" "alice" "user").Registered.ExpiresAt =
        some 1700086400 ∧
      1700086400 * second ≠ demoEnvHalf.now + 24 * hour :=
  ⟨rfl, rfl, by decide!, by decide!⟩

/-- C23 (amended). For every userID, username and role, the claims embedded in
the token issued by `GenerateJWT` at time t consist of that identifier, username
and role together with expires-at = t + 24 hours truncated to the whole second;
no issued-at claim (and no other registered claim) is set. -/
theorem session_claims_content (env : Env) (userID username role : String) :
    ∃ c e, GenerateJWT env userID username role = .ok (.hs256 env.jwtKey c) ∧
      c.UserID = userID ∧ c.Username = username ∧ c.Role = role ∧
      c.Registered.ExpiresAt = some e ∧
      e * second ≤ env.now + 24 * hour ∧ env.now + 24 * hour < e * second + second ∧
      c.Registered.IssuedAt = none ∧ c.Registered.NotBefore = none ∧
      c.Registered.Issuer = "" ∧ c.Registered.Subject = "" ∧
      c.Registered.Audience = [] ∧ c.Registered.ID = "" := by
  refine ⟨issuedClaims env.now userID username role, NewNumericDate (env.now + 24 * hour),
    rfl, rfl, rfl, rfl, rfl, ?_, ?_, rfl, rfl, rfl, rfl, rfl, rfl⟩
  · unfold NewNumericDate
    exact Nat.div_mul_le_self _ _
  · unfold NewNumericDate
    have h1 := Nat.div_add_mod (env.now + 24 * hour) second
    have h2 : (env.now + 24 * hour) % second < second := Nat.mod_lt _ second_pos
    have h3 : second * ((env.now + 24 * hour) / second) =
        (env.now + 24 * hour) / second * second := Nat.mul_comm _ _
    omega

/-! ## RegisterUser: theorems -/

/-- C24. For every self-registration request for which hashing succeeds, the user
record `RegisterUser` hands to the directory has Role = user, Status = active and
Password equal to the hash of the request's password, whatever the other request
fields are; the row the directory stores, when it accepts the record, has the
same three values. -/
theorem register_user_record (env : Env) (uc : Unicode) (ins : Insert) (db : Directory)
    (request : CreateUserRequest) (hashed : String)
    (hhash : env.HashPassword request.Password = (hashed, none)) :
    ∃ user, (RegisterUser env uc ins db request).handed = some user ∧
      user.Role = RoleUser ∧ user.Status = ActiveStatus ∧ user.Password = hashed ∧
      ∀ row, (RegisterUser env uc ins db request).result = .ok row →
        (RegisterUser env uc ins db request).db = db ++ [row] ∧
          row.Role = RoleUser ∧ row.Status = ActiveStatus ∧ row.Password = hashed := by
  refine ⟨RegisterUser.record uc request hashed, ?_, rfl, rfl, rfl, ?_⟩
  · unfold RegisterUser userRepository.Create
    rw [hhash]
    cases ins.err <;> rfl
  · intro row hrow
    unfold RegisterUser userRepository.Create at hrow ⊢
    rw [hhash] at hrow ⊢
    cases hi : ins.err with
    | some err =>
      rw [hi] at hrow
      cases hrow
    | none =>
      rw [hi] at hrow
      dsimp only at hrow ⊢
      cases hrow
      exact ⟨rfl, rfl, rfl, rfl⟩

/-- Witness for C24: the registration of dave. -/
theorem register_user_record_witness :
    ∃ user, (RegisterUser demoEnv demoUnicode demoInsert [alice, bob] demoCreate).handed =
        some user ∧
      user.Role = RoleUser ∧ user.Status = ActiveStatus ∧ user.Password = "hash:secret1" ∧
      ∀ row, (RegisterUser demoEnv demoUnicode demoInsert [alice, bob] demoCreate).result =
          .ok row →
        (RegisterUser demoEnv demoUnicode demoInsert [alice, bob] demoCreate).db =
            [alice, bob] ++ [row] ∧
          row.Role = RoleUser ∧ row.Status = ActiveStatus ∧ row.Password = "hash:secret1" :=
  register_user_record demoEnv demoUnicode demoInsert [alice, bob] demoCreate "hash:secret1"
    (by decide)

/-! ## The protected routes: theorems -/

/-- The chain `SetupRouter` registers for GET /auth/check is the handler alone. -/
theorem check_route_chain :
    (SetupRouter.find? (fun r => r.Method == "GET" && r.Path == "/auth/check")).map
      Route.Handlers = some [.CheckAuth] := by
  decide

/-- The chain `SetupRouter` registers for POST /auth/update-password is the
handler alone. -/
theorem update_route_chain :
    (SetupRouter.find? (fun r => r.Method == "POST" && r.Path == "/auth/update-password")).map
      Route.Handlers = some [.UpdatePassword] := by
  decide

/-- No route of `SetupRouter` has the `AuthMiddleware` in its chain. -/
theorem no_route_has_middleware :
    ∀ r ∈ SetupRouter, HandlerFunc.AuthMiddleware ∉ r.Handlers := by
  decide

/-- As wired, GET /auth/check answers 200 to every request, whatever its header. -/
theorem serve_check_auth (env : Env) (db : Directory) (authorization : Authorization)
    (body : Except String UpdatePasswordRequest) :
    ServeHTTP env db "GET" "/auth/check" authorization body =
      some (some { status := StatusOK, body := .ok { Message := "User is authenticated" } },
        db) := by
  have h : SetupRouter.find? (fun r => r.Method == "GET" && r.Path == "/auth/check") =
      some { Method := "GET", Path := "/auth/check", Handlers := [.CheckAuth] } := by decide
  unfold ServeHTTP
  rw [h]
  rfl

/-- As wired, POST /auth/update-password answers 401 "invalid token" to every
request and leaves the users table alone: the key "userID" is never set. -/
theorem serve_update_password (env : Env) (db : Directory) (authorization : Authorization)
    (body : Except String UpdatePasswordRequest) :
    ServeHTTP env db "POST" "/auth/update-password" authorization body =
      some (some { status := StatusUnauthorized, body := .error "invalid token" }, db) := by
  have h : SetupRouter.find? (fun r => r.Method == "POST" && r.Path == "/auth/update-password") =
      some { Method := "POST", Path := "/auth/update-password",
             Handlers := [.UpdatePassword] } := by decide
  unfold ServeHTTP
  rw [h]
  rfl

/-- The middleware itself does what its name says: a context whose header holds no
bearer token that `ValidateJWT` accepts is aborted with 401 "invalid token", and no
handler behind the middleware runs. -/
theorem middleware_rejects (env : Env) (db : Directory) (c : Context)
    (rest : List HandlerFunc)
    (hbad : ∀ t claims, c.authorization.trimBearer = some t →
      ValidateJWT env.jwtKey env.now t ≠ .ok claims) :
    runChain env (.AuthMiddleware :: rest) (c, db) =
      (if c.aborted then some (c, db)
       else some (c.AbortWithStatusJSON 401 "invalid token", db)) := by
  by_cases ha : c.aborted = true
  · rw [if_pos ha]
    unfold runChain
    exact if_pos ha
  · rw [if_neg ha]
    have hm : AuthMiddleware env c = c.AbortWithStatusJSON 401 "invalid token" := by
      unfold AuthMiddleware
      cases ht : c.authorization.trimBearer with
      | none => rfl
      | some t =>
        dsimp only
        cases hv : ValidateJWT env.jwtKey env.now t with
        | error e => rfl
        | ok claims => exact absurd hv (hbad t claims ht)
    unfold runChain
    rw [if_neg ha]
    show (match some (AuthMiddleware env c, db) with
      | none => none
      | some s1 => runChain env rest s1) = _
    rw [hm]
    cases rest with
    | nil => rfl
    | cons h tl =>
      show runChain env (h :: tl) (c.AbortWithStatusJSON 401 "invalid token", db) = _
      unfold runChain
      exact if_pos rfl

/-- Behind the middleware, the handler of POST /auth/update-password is run with
the UserID claim of the bearer token under the key "userID". -/
theorem middleware_passes_user_id (env : Env) (db : Directory) (t : Token) (claims : Claims)
    (body : Except String UpdatePasswordRequest)
    (hok : ValidateJWT env.jwtKey env.now t = .ok claims) :
    runChain env [.AuthMiddleware, .UpdatePassword] (Context.new (.bearer t) body, db) =
      some ({ Context.new (.bearer t) body with
              userID := some claims.UserID
              response := some (AuthController.UpdatePassword env db (some claims.UserID) body).1 },
        (AuthController.UpdatePassword env db (some claims.UserID) body).2) := by
  have hm : AuthMiddleware env (Context.new (.bearer t) body) =
      { Context.new (.bearer t) body with userID := some claims.UserID } := by
    unfold AuthMiddleware
    show (match ValidateJWT env.jwtKey env.now t with
      | .error _ => _
      | .ok claims => _) = _
    rw [hok]
  unfold runChain
  rw [if_neg (show ¬ ((Context.new (.bearer t) body, db).1.aborted = true) from
    Bool.false_ne_true)]
  show (match some (AuthMiddleware env (Context.new (.bearer t) body), db) with
    | none => none
    | some s1 => runChain env [.UpdatePassword] s1) = _
  rw [hm]
  rfl

/-- C21, the code at the failing input: a GET /auth/check request without
`Authorization` header is answered with status 200 and the success message "User
is authenticated", because the chain `SetupRouter` registers for the route holds
the handler alone; the same request through the `AuthMiddleware` is answered 401. -/
theorem check_auth_served_without_token :
    (SetupRouter.find? (fun r => r.Method == "GET" && r.Path == "/auth/check")).map
        Route.Handlers = some [.CheckAuth] ∧
      (Authorization.raw "").trimBearer = none ∧
      ServeHTTP demoEnv [alice, bob] "GET" "/auth/check" (.raw "") (.error "EOF") =
        some (some { status := 200, body := .ok { Message := "User is authenticated" } },
          [alice, bob]) ∧
      (runChain demoEnv [.AuthMiddleware, .CheckAuth]
          (Context.new (.raw "") (.error "EOF"), [alice, bob])).map (fun s => s.1.response) =
        some (some { status := 401, body := .error "invalid token" }) :=
  ⟨by decide, by decide, serve_check_auth demoEnv [alice, bob] (.raw "") (.error "EOF"),
    by decide⟩

/-- C22, the code at the failing input: alice logs in, and one second later sends
POST /auth/update-password with her session token and a well-formed body holding
her password. As wired by `SetupRouter` the answer is 401 "invalid token" and the
users table is unchanged: the UpdatePassword flow is not invoked. Invoked with the
UserID claim of the token, as it is behind the `AuthMiddleware`, the flow succeeds. -/
theorem update_password_served_without_user_id :
    Login demoEnv [alice, bob] ⟨"", "pw-a", "alice"⟩ = .ok { AccessToken := demoSessionToken } ∧
      ValidateJWT demoEnvLater.jwtKey demoEnvLater.now demoSessionToken =
        .ok (issuedClaims demoEnv.now "1" "alice" "user") ∧
      ServeHTTP demoEnvLater [alice, bob] "POST" "/auth/update-password"
          (.bearer demoSessionToken) (.ok demoUpdateBody) =
        some (some { status := 401, body := .error "invalid token" }, [alice, bob]) ∧
      (authService.UpdatePassword demoEnvLater [alice, bob] "1" demoUpdateBody).1 =
        .ok { Message := "Password updated successfully" } ∧
      (runChain demoEnvLater [.AuthMiddleware, .UpdatePassword]
          (Context.new (.bearer demoSessionToken) (.ok demoUpdateBody), [alice, bob])).map
          (fun s => (s.1.userID, s.1.response)) =
        some (some "1",
          some { status := 200, body := .ok { Message := "Password updated successfully" } }) :=
  ⟨by decide!, by decide!,
    serve_update_password demoEnvLater [alice, bob] (.bearer demoSessionToken)
      (.ok demoUpdateBody),
    by decide!, by decide!⟩

/-! ## Binary64 rounding: theorems -/

/-- Rounding yields the floor or the integer above it. -/
theorem rne_cases (x : ℚ) : roundHalfEven x = ⌊x⌋ ∨ roundHalfEven x = ⌊x⌋ + 1 := by
  unfold roundHalfEven
  split_ifs <;> simp

/-- Rounding does not go below an integer under the argument. -/
theorem le_rne (x : ℚ) (n : ℤ) (h : (n : ℚ) ≤ x) : n ≤ roundHalfEven x := by
  have hf : n ≤ ⌊x⌋ := Int.le_floor.mpr h
  rcases rne_cases x with h1 | h1 <;> omega

/-- Rounding does not go above an integer over the argument. -/
theorem rne_le (x : ℚ) (n : ℤ) (h : x ≤ (n : ℚ)) : roundHalfEven x ≤ n := by
  have hf : ⌊x⌋ ≤ n := Int.floor_le_floor h |>.trans (le_of_eq (Int.floor_intCast n))
  unfold roundHalfEven
  have hfx : (⌊x⌋ : ℚ) ≤ x := Int.floor_le x
  by_cases h1 : x - ⌊x⌋ < 1 / 2
  · rw [if_pos h1]; exact hf
  · have hlt : ⌊x⌋ < n := by
      have : (⌊x⌋ : ℚ) < n := by linarith
      exact_mod_cast this
    rw [if_neg h1]
    split_ifs <;> omega

/-- More than one half above an integer, rounding yields a greater integer. -/
theorem rne_gt (x : ℚ) (n : ℤ) (h : (n : ℚ) + 1 / 2 < x) : n + 1 ≤ roundHalfEven x := by
  have hf : n ≤ ⌊x⌋ := Int.le_floor.mpr (by linarith)
  unfold roundHalfEven
  by_cases h0 : ⌊x⌋ = n
  · have h1 : ¬ (x - ⌊x⌋ < 1 / 2) := by rw [h0]; linarith
    have h2 : 1 / 2 < x - ⌊x⌋ := by rw [h0]; linarith
    rw [if_neg h1, if_pos h2]; omega
  · have : n + 1 ≤ ⌊x⌋ := by omega
    split_ifs <;> omega

/-- The unit in the last place of the binade of a positive `q`. -/
theorem ulp_spec (q : ℚ) (hq : 0 < q) :
    (0 : ℚ) < 2 ^ (Int.log 2 q - 52) ∧ 2 ^ 52 * 2 ^ (Int.log 2 q - 52) ≤ q ∧
      q < 2 ^ 53 * 2 ^ (Int.log 2 q - 52) := by
  have h2 : (0 : ℚ) < 2 := by norm_num
  have hlo := Int.zpow_log_le_self (b := 2) (by norm_num) hq
  have hhi := Int.lt_zpow_succ_log_self (b := 2) (by norm_num) q
  have e1 : (2 : ℚ) ^ (52 : ℕ) * 2 ^ (Int.log 2 q - 52) = 2 ^ (Int.log 2 q) := by
    rw [← zpow_natCast, ← zpow_add₀ (ne_of_gt h2)]; congr 1; push_cast; ring
  have e2 : (2 : ℚ) ^ (53 : ℕ) * 2 ^ (Int.log 2 q - 52) = 2 ^ (Int.log 2 q + 1) := by
    rw [← zpow_natCast, ← zpow_add₀ (ne_of_gt h2)]; congr 1; push_cast; ring
  refine ⟨zpow_pos h2 _, ?_, ?_⟩
  · rw [e1]; exact_mod_cast hlo
  · rw [e2]; exact_mod_cast hhi

/-- Below 2^53 the unit in the last place is one over a power of two. -/
theorem ulp_inv (q : ℚ) (hq : 0 < q) (hlt : q < 2 ^ 53) :
    ∃ m : ℕ, (2 : ℚ) ^ (Int.log 2 q - 52) * 2 ^ m = 1 := by
  have hl : Int.log 2 q < 53 := by
    have := (Int.lt_zpow_iff_log_lt (b := 2) (by norm_num) hq (x := 53)).mp (by exact_mod_cast hlt)
    exact this
  refine ⟨(52 - Int.log 2 q).toNat, ?_⟩
  have h2 : (2 : ℚ) ≠ 0 := by norm_num
  rw [← zpow_natCast, ← zpow_add₀ h2]
  have : Int.log 2 q - 52 + ((52 - Int.log 2 q).toNat : ℤ) = 0 := by
    rw [Int.toNat_of_nonneg (by omega)]; ring
  rw [this, zpow_zero]

/-- The rounding of a positive rational. -/
theorem float64_pos_eq (q : ℚ) (hq : 0 < q) :
    float64 q = roundHalfEven (q / 2 ^ (Int.log 2 q - 52)) * 2 ^ (Int.log 2 q - 52) := by
  unfold float64
  rw [if_neg (ne_of_gt hq), abs_of_pos hq]

/-- Rounding does not cross a natural number from below. -/
theorem float64_le_nat (q : ℚ) (n : ℕ) (hq : 0 < q) (hlt : q < 2 ^ 53) (h : q ≤ n) :
    float64 q ≤ n := by
  obtain ⟨hu, _, _⟩ := ulp_spec q hq
  obtain ⟨m, hm⟩ := ulp_inv q hq hlt
  rw [float64_pos_eq q hq]
  set u : ℚ := 2 ^ (Int.log 2 q - 52) with hu_def
  have hdiv : q / u = q * 2 ^ m := by
    field_simp
    rw [mul_assoc, mul_comm ((2:ℚ) ^ m) u, hm, mul_one]
  have hr : roundHalfEven (q / u) ≤ ((n * 2 ^ m : ℕ) : ℤ) := by
    apply rne_le
    rw [hdiv]
    push_cast
    have : (0 : ℚ) < 2 ^ m := by positivity
    nlinarith
  have hr' : (roundHalfEven (q / u) : ℚ) ≤ (n : ℚ) * 2 ^ m := by exact_mod_cast hr
  calc (roundHalfEven (q / u) : ℚ) * u ≤ (n : ℚ) * 2 ^ m * u :=
        mul_le_mul_of_nonneg_right hr' (le_of_lt hu)
    _ = n := by rw [mul_assoc, mul_comm ((2:ℚ) ^ m) u, hm, mul_one]

/-- Rounding stays above a natural number that lies more than half a unit in the
last place below. -/
theorem float64_gt_nat (q : ℚ) (n : ℕ) (hq : 0 < q) (hlt : q < 2 ^ 53)
    (h : q < (q - n) * 2 ^ 53) : (n : ℚ) < float64 q := by
  obtain ⟨hu, hlo, _⟩ := ulp_spec q hq
  obtain ⟨m, hm⟩ := ulp_inv q hq hlt
  rw [float64_pos_eq q hq]
  set u : ℚ := 2 ^ (Int.log 2 q - 52) with hu_def
  have hpm : (0 : ℚ) < 2 ^ m := by positivity
  have hdiv : q / u = q * 2 ^ m := by
    field_simp
    rw [mul_assoc, mul_comm ((2:ℚ) ^ m) u, hm, mul_one]
  have hum : u = 1 / 2 ^ m := by
    field_simp
    exact hm
  have hr : ((n * 2 ^ m : ℕ) : ℤ) + 1 ≤ roundHalfEven (q / u) := by
    apply rne_gt
    rw [hdiv]
    push_cast
    -- (q - n) * 2^m > 1/2
    have h1 : (2:ℚ) ^ 52 * u ≤ q := hlo
    rw [hum] at h1
    have h2 : (2:ℚ) ^ 52 ≤ q * 2 ^ m := by
      have := mul_le_mul_of_nonneg_right h1 (le_of_lt hpm)
      rw [mul_assoc, one_div, inv_mul_cancel₀ (ne_of_gt hpm), mul_one] at this
      exact this
    have h3 : q * 2 ^ m < (q - n) * 2 ^ 53 * 2 ^ m := mul_lt_mul_of_pos_right h hpm
    have h4 : q * 2 ^ m < (q * 2 ^ m - n * 2 ^ m) * 2 ^ 53 := by
      calc q * 2 ^ m < (q - n) * 2 ^ 53 * 2 ^ m := h3
        _ = (q * 2 ^ m - n * 2 ^ m) * 2 ^ 53 := by ring
    generalize q * (2:ℚ) ^ m = a at h2 h4 ⊢
    generalize (n:ℚ) * (2:ℚ) ^ m = b at h4 ⊢
    norm_num at h2 h4 ⊢
    linarith
  have hr' : (n : ℚ) * 2 ^ m + 1 ≤ (roundHalfEven (q / u) : ℚ) := by exact_mod_cast hr
  calc (n : ℚ) = (n : ℚ) * 2 ^ m * u := by
        rw [mul_assoc, mul_comm ((2:ℚ) ^ m) u, hm, mul_one]
    _ < ((n : ℚ) * 2 ^ m + 1) * u := by nlinarith
    _ ≤ (roundHalfEven (q / u) : ℚ) * u := mul_le_mul_of_nonneg_right hr' (le_of_lt hu)

/-- Rounding fixes the integers. -/
theorem rne_int (z : ℤ) : roundHalfEven (z : ℚ) = z :=
  le_antisymm (rne_le _ z le_rfl) (le_rne _ z le_rfl)

/-- A natural number below 2^53 is a binary64 value. -/
theorem float64_nat (n : ℕ) (hlt : n < 2 ^ 53) : float64 (n : ℚ) = n := by
  rcases Nat.eq_zero_or_pos n with h0 | hpos
  · subst h0
    unfold float64
    simp
  · have hq : (0 : ℚ) < n := by exact_mod_cast hpos
    have hlt' : (n : ℚ) < 2 ^ 53 := by exact_mod_cast hlt
    obtain ⟨m, hm⟩ := ulp_inv n hq hlt'
    rw [float64_pos_eq _ hq]
    set u : ℚ := 2 ^ (Int.log 2 (n : ℚ) - 52) with hu_def
    have hdiv : (n : ℚ) / u = ((n * 2 ^ m : ℕ) : ℤ) := by
      have hu : u ≠ 0 := by
        intro h0
        rw [h0, zero_mul] at hm
        exact zero_ne_one hm
      field_simp
      rw [mul_assoc, mul_comm ((2:ℚ) ^ m) u, hm, mul_one]
    rw [hdiv, rne_int]
    push_cast
    rw [mul_assoc, mul_comm ((2:ℚ) ^ m) u, hm, mul_one]

/-- Rounding does not take a value from 2^53 upwards below 2^53. -/
theorem float64_ge_large (q : ℚ) (h : 2 ^ 53 ≤ q) : (2 : ℚ) ^ 53 ≤ float64 q := by
  have hq : 0 < q := lt_of_lt_of_le (by norm_num) h
  obtain ⟨hu, hlo, _⟩ := ulp_spec q hq
  have hl : (53 : ℤ) ≤ Int.log 2 q :=
    (Int.zpow_le_iff_le_log (b := 2) (by norm_num) hq (x := 53)).mp (by exact_mod_cast h)
  rw [float64_pos_eq q hq]
  have hu2 : (2 : ℚ) ≤ 2 ^ (Int.log 2 q - 52) := by
    have h1 : (2 : ℚ) ^ (1 : ℤ) ≤ 2 ^ (Int.log 2 q - 52) :=
      zpow_le_zpow_right₀ (by norm_num) (by omega)
    simpa using h1
  set u : ℚ := 2 ^ (Int.log 2 q - 52) with hu_def
  have hx : (((2 ^ 52 : ℕ) : ℤ) : ℚ) ≤ q / u := by
    rw [le_div_iff₀ hu]
    push_cast
    exact hlo
  have hr := le_rne (q / u) _ hx
  have hr' : (2 : ℚ) ^ 52 ≤ (roundHalfEven (q / u) : ℚ) := by exact_mod_cast hr
  calc (2 : ℚ) ^ 53 = 2 ^ 52 * 2 := by norm_num
    _ ≤ (roundHalfEven (q / u) : ℚ) * u :=
        mul_le_mul hr' hu2 (by norm_num) (le_trans (by norm_num) hr')

/-- The page count computed in binary64 is the exact ceiling of the quotient for
every total below 2^53. -/
theorem ceil_float64_div (T S : ℕ) (hT : T < 2 ^ 53) (hS : 0 < S) :
    ⌈float64 (float64 T / float64 S)⌉ = ⌈(T : ℚ) / S⌉ := by
  rw [float64_nat T hT]
  rcases Nat.eq_zero_or_pos T with h0 | hpos
  · subst h0
    have : float64 0 = 0 := by unfold float64; simp
    simp [this]
  have hTq : (0 : ℚ) < T := by exact_mod_cast hpos
  have hSq : (0 : ℚ) < S := by exact_mod_cast hS
  have hT53 : (T : ℚ) < 2 ^ 53 := by exact_mod_cast hT
  have hS1 : (1 : ℚ) ≤ S := by exact_mod_cast hS
  by_cases hlarge : S < 2 ^ 53
  · rw [float64_nat S hlarge]
    have hq : (0 : ℚ) < (T : ℚ) / S := div_pos hTq hSq
    have hqT : (T : ℚ) / S ≤ T := div_le_self (le_of_lt hTq) hS1
    have hq53 : (T : ℚ) / S < 2 ^ 53 := lt_of_le_of_lt hqT hT53
    have hc1 : (1 : ℤ) ≤ ⌈(T : ℚ) / S⌉ := Int.one_le_ceil_iff.mpr hq
    obtain ⟨k, hk⟩ : ∃ k : ℕ, ⌈(T : ℚ) / S⌉ = (k : ℤ) + 1 :=
      ⟨(⌈(T : ℚ) / S⌉ - 1).toNat, by rw [Int.toNat_of_nonneg (by omega)]; ring⟩
    have hle : (T : ℚ) / S ≤ ((k + 1 : ℕ) : ℚ) := by
      have := Int.le_ceil ((T : ℚ) / S)
      rw [hk] at this
      exact_mod_cast this
    have hgt : (k : ℚ) < (T : ℚ) / S := by
      have := Int.lt_ceil.mp (show (k : ℤ) < ⌈(T : ℚ) / S⌉ by omega)
      exact_mod_cast this
    have hup := float64_le_nat _ (k + 1) hq hq53 hle
    have hkS : k * S + 1 ≤ T := by
      have h1 : (k : ℚ) * S < T := by
        rwa [lt_div_iff₀ hSq] at hgt
      have h2 : k * S < T := by exact_mod_cast h1
      omega
    have hgap : (T : ℚ) / S < ((T : ℚ) / S - k) * 2 ^ 53 := by
      have h1 : (1 : ℚ) / S ≤ (T : ℚ) / S - k := by
        rw [div_sub' _ _ _ (ne_of_gt hSq), div_le_div_iff_of_pos_right hSq]
        have : ((k * S + 1 : ℕ) : ℚ) ≤ T := by exact_mod_cast hkS
        push_cast at this
        linarith
      have h2 : (T : ℚ) / S < (1 : ℚ) / S * 2 ^ 53 := by
        rw [div_mul_eq_mul_div, one_mul, div_lt_div_iff_of_pos_right hSq]
        exact hT53
      have h3 : (1 : ℚ) / S * 2 ^ 53 ≤ ((T : ℚ) / S - k) * 2 ^ 53 :=
        mul_le_mul_of_nonneg_right h1 (by norm_num)
      linarith
    have hlo := float64_gt_nat _ k hq hq53 hgap
    rw [hk, Int.ceil_eq_iff]
    push_cast at hup ⊢
    constructor
    · linarith
    · exact hup
  · have hS53 : (2 : ℚ) ^ 53 ≤ S := by exact_mod_cast (not_lt.mp hlarge)
    have hD := float64_ge_large S hS53
    have hDpos : (0 : ℚ) < float64 S := lt_of_lt_of_le (by norm_num) hD
    have hq : (0 : ℚ) < (T : ℚ) / float64 S := div_pos hTq hDpos
    have hq1 : (T : ℚ) / float64 S ≤ ((1 : ℕ) : ℚ) := by
      rw [div_le_iff₀ hDpos]
      push_cast
      linarith
    have hq53 : (T : ℚ) / float64 S < 2 ^ 53 := lt_of_le_of_lt hq1 (by norm_num)
    have hup := float64_le_nat _ 1 hq hq53 hq1
    have hlo := float64_gt_nat _ 0 hq hq53 (by push_cast; linarith)
    have hr : ⌈(T : ℚ) / S⌉ = 1 := by
      rw [Int.ceil_eq_iff]
      push_cast
      constructor
      · have := div_pos hTq hSq
        linarith
      · rw [div_le_iff₀ hSq]
        linarith
    rw [hr, Int.ceil_eq_iff]
    push_cast at hup hlo ⊢
    constructor
    · linarith
    · exact hup

/-! ## GetAllUsers: theorems -/

/-- The conversion to `int` of a ceiling is that ceiling. -/
theorem toInt_Ceil (x : ℚ) : toInt (Ceil x) = ⌈x⌉ := by
  unfold toInt Ceil
  split_ifs
  · exact Int.floor_intCast _
  · exact Int.ceil_intCast _

/-- For a total from 0 to below 2^53 and a positive page size, the last page that
`GetAllUsers` computes in binary64 is the exact ceiling of total / page size. -/
theorem lastPage_eq_ceil (T S : Int) (h0 : 0 ≤ T) (h53 : T < 2 ^ 53) (hS : 0 < S) :
    GetAllUsers.lastPage T S = ⌈(T : ℚ) / S⌉ := by
  lift T to ℕ using h0
  lift S to ℕ using le_of_lt hS
  have hT : T < 2 ^ 53 := by exact_mod_cast h53
  have hS' : 0 < S := by exact_mod_cast hS
  have hc := ceil_float64_div T S hT hS'
  unfold GetAllUsers.lastPage
  dsimp only
  simp only [Int.cast_natCast]
  rw [toInt_Ceil, hc]
  apply if_neg
  rintro ⟨hz, hpos⟩
  have hq : (0 : ℚ) < (T : ℚ) / S :=
    div_pos (by exact_mod_cast hpos) (by exact_mod_cast hS')
  have := Int.one_le_ceil_iff.mpr hq
  omega

/-- The request after lines 32-37 of `GetAllUsers`. -/
theorem defaults_eq (params : GetAllUsersRequest) :
    GetAllUsers.defaults params =
      { params with
        PageNumber := if params.PageNumber = 0 then 1 else params.PageNumber
        PageSize := if params.PageSize = 0 then 10 else params.PageSize } := by
  unfold GetAllUsers.defaults
  by_cases h1 : params.PageNumber = 0 <;> by_cases h2 : params.PageSize = 0 <;>
    simp [h1, h2]

/-- C25. For every total count T ≥ 0 below 2^53 returned by the directory and
every request with page number P and page size S, where 0 is replaced by the
defaults P = 1 and S = 10 and S > 0: `GetAllUsers` reports CurrentPage = P,
Total = T, LastPage = the least integer n ≥ 0 with n·S ≥ T, NextPage = P + 1
exactly when P < LastPage (absent otherwise), and PreviousPage = P − 1 exactly
when P > 1 (absent otherwise). -/
theorem get_all_users_pagination
    (FindAll : GetAllUsersRequest → Except String (List User × Int))
    (params : GetAllUsersRequest) (users : List User) (T P S : Int)
    (hP : P = if params.PageNumber = 0 then 1 else params.PageNumber)
    (hS : S = if params.PageSize = 0 then 10 else params.PageSize)
    (hfind : FindAll { params with PageNumber := P, PageSize := S } = .ok (users, T))
    (h0 : 0 ≤ T) (h53 : T < 2 ^ 53) (hpos : 0 < S) :
    ∃ resp, GetAllUsers FindAll params = .ok resp ∧
      resp.CurrentPage = P ∧ resp.Total = T ∧
      (0 ≤ resp.LastPage ∧ T ≤ resp.LastPage * S ∧
        ∀ n : Int, 0 ≤ n → T ≤ n * S → resp.LastPage ≤ n) ∧
      resp.NextPage = (if P < resp.LastPage then some (P + 1) else none) ∧
      resp.PreviousPage = (if P > 1 then some (P - 1) else none) ∧
      resp.List = users ∧ resp.Status = "success" := by
  have hd : GetAllUsers.defaults params = { params with PageNumber := P, PageSize := S } := by
    rw [defaults_eq, ← hP, ← hS]
  have hSq : (0 : ℚ) < S := by exact_mod_cast hpos
  have hTq : (0 : ℚ) ≤ T := by exact_mod_cast h0
  have hl := lastPage_eq_ceil T S h0 h53 hpos
  unfold GetAllUsers
  dsimp only
  rw [hd, hfind]
  dsimp only
  refine ⟨_, rfl, rfl, rfl, ⟨?_, ?_, ?_⟩, rfl, rfl, rfl, rfl⟩
  · rw [hl]
    exact Int.ceil_nonneg (div_nonneg hTq (le_of_lt hSq))
  · rw [hl]
    have h1 := Int.le_ceil ((T : ℚ) / S)
    rw [div_le_iff₀ hSq] at h1
    exact_mod_cast h1
  · intro n _ hn
    rw [hl]
    apply Int.ceil_le.mpr
    rw [div_le_iff₀ hSq]
    exact_mod_cast hn

/-- Witness for C25: page 2 of 25 users at the default page size: three pages. -/
theorem get_all_users_pagination_witness :
    ∃ resp, GetAllUsers demoFindAll demoList = .ok resp ∧
      resp.CurrentPage = 2 ∧ resp.Total = 25 ∧
      (0 ≤ resp.LastPage ∧ 25 ≤ resp.LastPage * 10 ∧
        ∀ n : Int, 0 ≤ n → 25 ≤ n * 10 → resp.LastPage ≤ n) ∧
      resp.NextPage = (if 2 < resp.LastPage then some (2 + 1) else none) ∧
      resp.PreviousPage = (if (2 : Int) > 1 then some (2 - 1) else none) ∧
      resp.List = [alice, bob] ∧ resp.Status = "success" :=
  get_all_users_pagination demoFindAll demoList [alice, bob] 25 2 10 (by decide) (by decide)
    rfl (by decide) (by decide) (by decide)

end UserManagement
